import Mathlib

/-! Hexperiment firmware: button cells, tuning catalog, rotary knob, soft timer

A shallow embedding of the parts of the firmware that the properties below are
about, followed by the properties themselves.

Conventions of the embedding
* `int` is the 32-bit two's-complement integer of the target; sums and
  differences are reduced with `wrap32`, `%` truncates towards zero.
* `byte` values are naturals below 256, `uint64_t` values naturals below `2^64`;
  unsigned arithmetic is reduced modulo the width.
* Reads of the outside world (`digitalRead`, the hardware clock) are explicit
  arguments of the operation that performs them.
* An array read outside the array, `%` by zero and `INT_MIN % -1` have no result
  (`none`).
-/

namespace Hexperiment

/-! ## Machine integers -/

/-- Reduction of a mathematical integer to the 32-bit two's-complement `int`. -/
def wrap32 (x : Int) : Int := (x + 2147483648) % 4294967296 - 2147483648

/-- The values an `int` variable can hold. -/
def isInt32 (x : Int) : Prop := -2147483648 ≤ x ∧ x ≤ 2147483647

instance (x : Int) : Decidable (isInt32 x) := by unfold isInt32; infer_instance

/-- C++ `a + b` on `int`. -/
def intAdd (a b : Int) : Int := wrap32 (a + b)

/-- C++ `a - b` on `int`. -/
def intSub (a b : Int) : Int := wrap32 (a - b)

/-- C++ `a * b` on `int`. -/
def intMul (a b : Int) : Int := wrap32 (a * b)

/-- C++ `a % b` on `int`: truncating remainder; no result for `b = 0`, nor for
`INT_MIN % -1`, whose quotient is not an `int`. -/
def intMod (a b : Int) : Option Int :=
  if b = 0 ∨ (a = -2147483648 ∧ b = -1) then none else some (Int.tmod a b)

/-- The modulus of `uint64_t` arithmetic. -/
def U64 : Nat := 18446744073709551616

/-! ## scratch.cpp: `buttonDef` -/

def BTN_STATE_OFF : Nat := 0
def BTN_STATE_NEWPRESS : Nat := 1
def BTN_STATE_RELEASED : Nat := 2
def BTN_STATE_HELD : Nat := 3

/-- The fields of `buttonDef` that `interpBtnPress` can read or write, and the
press time stamp. `btnState` is a `byte`, `timePressed` a `uint64_t`. -/
structure buttonDef where
  btnState : Nat := 0
  timePressed : Nat := 0
deriving DecidableEq

/-- `btnState = (((btnState << 1) + isPress) & 3);` stored back into a byte. -/
def buttonDef.interpBtnPress (b : buttonDef) (isPress : Bool) : buttonDef :=
  { b with btnState := (((b.btnState <<< 1) + isPress.toNat) &&& 3) % 256 }

/-- Successive button states when the samples are fed one poll after another. -/
def buttonDef.pollStates (b : buttonDef) : List Bool → List Nat
  | [] => []
  | s :: rest => (b.interpBtnPress s).btnState :: (b.interpBtnPress s).pollStates rest

/-! ## helpers.h: `positiveMod` -/

/-- `return (((n % d) + d) % d);` on `int`. -/
def positiveMod (n d : Int) : Option Int :=
  match intMod n d with
  | none => none
  | some r => intMod (intAdd r d) d

/-! ## constants.h -/

def TUNINGCOUNT : Nat := 13
def TUNING_12EDO : Nat := 0
def TUNING_17EDO : Nat := 1
def TUNING_19EDO : Nat := 2
def TUNING_22EDO : Nat := 3
def TUNING_24EDO : Nat := 4
def TUNING_31EDO : Nat := 5
def TUNING_41EDO : Nat := 6
def TUNING_53EDO : Nat := 7
def TUNING_72EDO : Nat := 8
def TUNING_BP : Nat := 9
def TUNING_ALPHA : Nat := 10
def TUNING_BETA : Nat := 11
def TUNING_GAMMA : Nat := 12
def MAX_SCALE_DIVISIONS : Nat := 72
def ALL_TUNINGS : Nat := 255

/-! ## microtonal.h: tunings -/

/-- The menu library's spinner option: a label and the `int` it selects. -/
structure SelectOptionInt where
  name : String
  val_int : Int

/-- A tuning system. `keyChoices` holds the initialised entries of the
`MAX_SCALE_DIVISIONS`-element array, the rest of which is zero-filled.
The `float stepSize` (cents per step) takes no part in the integer
computations below and is left out. -/
structure tuningDef where
  name : String
  cycleLength : Nat
  keyChoices : List SelectOptionInt

/-- The read `keyChoices[i]` of the zero-padded array. -/
def tuningDef.keyChoice (t : tuningDef) (i : Nat) : Option SelectOptionInt :=
  if i < MAX_SCALE_DIVISIONS then some (t.keyChoices.getD i ⟨"", 0⟩) else none

/-- `return keyChoices[0].val_int;` -/
def tuningDef.spanCtoA (t : tuningDef) : Int :=
  (t.keyChoices.getD 0 ⟨"", 0⟩).val_int

def tuningOptions : List tuningDef := [
  tuningDef.mk "12 EDO" 12 [
    SelectOptionInt.mk "C" (-9), SelectOptionInt.mk "C#" (-8), SelectOptionInt.mk "D" (-7),
    SelectOptionInt.mk "Eb" (-6), SelectOptionInt.mk "E" (-5), SelectOptionInt.mk "F" (-4),
    SelectOptionInt.mk "F#" (-3), SelectOptionInt.mk "G" (-2), SelectOptionInt.mk "G#" (-1),
    SelectOptionInt.mk "A" 0, SelectOptionInt.mk "Bb" 1, SelectOptionInt.mk "B" 2],
  tuningDef.mk "17 EDO" 17 [
    SelectOptionInt.mk "C" (-13), SelectOptionInt.mk "Db" (-12), SelectOptionInt.mk "C#" (-11),
    SelectOptionInt.mk "D" (-10), SelectOptionInt.mk "Eb" (-9), SelectOptionInt.mk "D#" (-8),
    SelectOptionInt.mk "E" (-7), SelectOptionInt.mk "F" (-6), SelectOptionInt.mk "Gb" (-5),
    SelectOptionInt.mk "F#" (-4), SelectOptionInt.mk "G" (-3), SelectOptionInt.mk "Ab" (-2),
    SelectOptionInt.mk "G#" (-1), SelectOptionInt.mk "A" 0, SelectOptionInt.mk "Bb" 1,
    SelectOptionInt.mk "A#" 2, SelectOptionInt.mk "B" 3],
  tuningDef.mk "19 EDO" 19 [
    SelectOptionInt.mk "C" (-14), SelectOptionInt.mk "C#" (-13), SelectOptionInt.mk "Db" (-12),
    SelectOptionInt.mk "D" (-11), SelectOptionInt.mk "D#" (-10), SelectOptionInt.mk "Eb" (-9),
    SelectOptionInt.mk "E" (-8), SelectOptionInt.mk "E#" (-7), SelectOptionInt.mk "F" (-6),
    SelectOptionInt.mk "F#" (-5), SelectOptionInt.mk "Gb" (-4), SelectOptionInt.mk "G" (-3),
    SelectOptionInt.mk "G#" (-2), SelectOptionInt.mk "Ab" (-1), SelectOptionInt.mk "A" 0,
    SelectOptionInt.mk "A#" 1, SelectOptionInt.mk "Bb" 2, SelectOptionInt.mk "B" 3,
    SelectOptionInt.mk "Cb" 4],
  tuningDef.mk "22 EDO" 22 [
    SelectOptionInt.mk " C" (-17), SelectOptionInt.mk "^C" (-16), SelectOptionInt.mk "vC#" (-15),
    SelectOptionInt.mk "vD" (-14), SelectOptionInt.mk " D" (-13), SelectOptionInt.mk "^D" (-12),
    SelectOptionInt.mk "^Eb" (-11), SelectOptionInt.mk "vE" (-10), SelectOptionInt.mk " E" (-9),
    SelectOptionInt.mk " F" (-8), SelectOptionInt.mk "^F" (-7), SelectOptionInt.mk "vF#" (-6),
    SelectOptionInt.mk "vG" (-5), SelectOptionInt.mk " G" (-4), SelectOptionInt.mk "^G" (-3),
    SelectOptionInt.mk "vG#" (-2), SelectOptionInt.mk "vA" (-1), SelectOptionInt.mk " A" 0,
    SelectOptionInt.mk "^A" 1, SelectOptionInt.mk "^Bb" 2, SelectOptionInt.mk "vB" 3,
    SelectOptionInt.mk " B" 4],
  tuningDef.mk "24 EDO" 24 [
    SelectOptionInt.mk "C" (-18), SelectOptionInt.mk "C+" (-17), SelectOptionInt.mk "C#" (-16),
    SelectOptionInt.mk "Dd" (-15), SelectOptionInt.mk "D" (-14), SelectOptionInt.mk "D+" (-13),
    SelectOptionInt.mk "Eb" (-12), SelectOptionInt.mk "Ed" (-11), SelectOptionInt.mk "E" (-10),
    SelectOptionInt.mk "E+" (-9), SelectOptionInt.mk "F" (-8), SelectOptionInt.mk "F+" (-7),
    SelectOptionInt.mk "F#" (-6), SelectOptionInt.mk "Gd" (-5), SelectOptionInt.mk "G" (-4),
    SelectOptionInt.mk "G+" (-3), SelectOptionInt.mk "G#" (-2), SelectOptionInt.mk "Ad" (-1),
    SelectOptionInt.mk "A" 0, SelectOptionInt.mk "A+" 1, SelectOptionInt.mk "Bb" 2,
    SelectOptionInt.mk "Bd" 3, SelectOptionInt.mk "B" 4, SelectOptionInt.mk "Cd" 5],
  tuningDef.mk "31 EDO" 31 [
    SelectOptionInt.mk "C" (-23), SelectOptionInt.mk "C+" (-22), SelectOptionInt.mk "C#" (-21),
    SelectOptionInt.mk "Db" (-20), SelectOptionInt.mk "Dd" (-19), SelectOptionInt.mk "D" (-18),
    SelectOptionInt.mk "D+" (-17), SelectOptionInt.mk "D#" (-16), SelectOptionInt.mk "Eb" (-15),
    SelectOptionInt.mk "Ed" (-14), SelectOptionInt.mk "E" (-13), SelectOptionInt.mk "E+" (-12),
    SelectOptionInt.mk "Fd" (-11), SelectOptionInt.mk "F" (-10), SelectOptionInt.mk "F+" (-9),
    SelectOptionInt.mk "F#" (-8), SelectOptionInt.mk "Gb" (-7), SelectOptionInt.mk "Gd" (-6),
    SelectOptionInt.mk "G" (-5), SelectOptionInt.mk "G+" (-4), SelectOptionInt.mk "G#" (-3),
    SelectOptionInt.mk "Ab" (-2), SelectOptionInt.mk "Ad" (-1), SelectOptionInt.mk "A" 0,
    SelectOptionInt.mk "A+" 1, SelectOptionInt.mk "A#" 2, SelectOptionInt.mk "Bb" 3,
    SelectOptionInt.mk "Bd" 4, SelectOptionInt.mk "B" 5, SelectOptionInt.mk "B+" 6,
    SelectOptionInt.mk "Cd" 7],
  tuningDef.mk "41 EDO" 41 [
    SelectOptionInt.mk " C" (-31), SelectOptionInt.mk "^C" (-30), SelectOptionInt.mk " C+" (-29),
    SelectOptionInt.mk " Db" (-28), SelectOptionInt.mk " C#" (-27),
    SelectOptionInt.mk " Dd" (-26), SelectOptionInt.mk "vD" (-24), SelectOptionInt.mk " D" (-24),
    SelectOptionInt.mk "^D" (-23), SelectOptionInt.mk " D+" (-22),
    SelectOptionInt.mk " Eb" (-21), SelectOptionInt.mk " D#" (-20),
    SelectOptionInt.mk " Ed" (-19), SelectOptionInt.mk "vE" (-18), SelectOptionInt.mk " E" (-17),
    SelectOptionInt.mk "^E" (-16), SelectOptionInt.mk "vF" (-15), SelectOptionInt.mk " F" (-14),
    SelectOptionInt.mk "^F" (-13), SelectOptionInt.mk " F+" (-12),
    SelectOptionInt.mk " Gb" (-11), SelectOptionInt.mk " F#" (-10),
    SelectOptionInt.mk " Gd" (-9), SelectOptionInt.mk "vG" (-8), SelectOptionInt.mk " G" (-7),
    SelectOptionInt.mk "^G" (-6), SelectOptionInt.mk " G+" (-5), SelectOptionInt.mk " Ab" (-4),
    SelectOptionInt.mk " G#" (-3), SelectOptionInt.mk " Ad" (-2), SelectOptionInt.mk "vA" (-1),
    SelectOptionInt.mk " A" 0, SelectOptionInt.mk "^A" 1, SelectOptionInt.mk " A+" 2,
    SelectOptionInt.mk " Bb" 3, SelectOptionInt.mk " A#" 4, SelectOptionInt.mk " Bd" 5,
    SelectOptionInt.mk "vB" 6, SelectOptionInt.mk " B" 7, SelectOptionInt.mk "^B" 8,
    SelectOptionInt.mk "vC" 9],
  tuningDef.mk "53 EDO" 53 [
    SelectOptionInt.mk " C" (-40), SelectOptionInt.mk "^C" (-39), SelectOptionInt.mk ">C" (-38),
    SelectOptionInt.mk "vDb" (-37), SelectOptionInt.mk "Db" (-36),
    SelectOptionInt.mk " C#" (-35), SelectOptionInt.mk "^C#" (-34),
    SelectOptionInt.mk "<D" (-33), SelectOptionInt.mk "vD" (-32), SelectOptionInt.mk " D" (-31),
    SelectOptionInt.mk "^D" (-30), SelectOptionInt.mk ">D" (-29), SelectOptionInt.mk "vEb" (-28),
    SelectOptionInt.mk "Eb" (-27), SelectOptionInt.mk " D#" (-26),
    SelectOptionInt.mk "^D#" (-25), SelectOptionInt.mk "<E" (-24), SelectOptionInt.mk "vE" (-23),
    SelectOptionInt.mk " E" (-22), SelectOptionInt.mk "^E" (-21), SelectOptionInt.mk ">E" (-20),
    SelectOptionInt.mk "vF" (-19), SelectOptionInt.mk " F" (-18), SelectOptionInt.mk "^F" (-17),
    SelectOptionInt.mk ">F" (-16), SelectOptionInt.mk "vGb" (-15), SelectOptionInt.mk "Gb" (-14),
    SelectOptionInt.mk " F#" (-13), SelectOptionInt.mk "^F#" (-12),
    SelectOptionInt.mk "<G" (-11), SelectOptionInt.mk "vG" (-10), SelectOptionInt.mk " G" (-9),
    SelectOptionInt.mk "^G" (-8), SelectOptionInt.mk ">G" (-7), SelectOptionInt.mk "vAb" (-6),
    SelectOptionInt.mk "Ab" (-5), SelectOptionInt.mk " G#" (-4), SelectOptionInt.mk "^G#" (-3),
    SelectOptionInt.mk "<A" (-2), SelectOptionInt.mk "vA" (-1), SelectOptionInt.mk " A" 0,
    SelectOptionInt.mk "^A" 1, SelectOptionInt.mk ">A" 2, SelectOptionInt.mk "vBb" 3,
    SelectOptionInt.mk "Bb" 4, SelectOptionInt.mk " A#" 5, SelectOptionInt.mk "^A#" 6,
    SelectOptionInt.mk "<B" 7, SelectOptionInt.mk "vB" 8, SelectOptionInt.mk " B" 9,
    SelectOptionInt.mk "^B" 10, SelectOptionInt.mk "<C" 11, SelectOptionInt.mk "vC" 12],
  tuningDef.mk "72 EDO" 72 [
    SelectOptionInt.mk " C" (-54), SelectOptionInt.mk "^C" (-53), SelectOptionInt.mk ">C" (-52),
    SelectOptionInt.mk " C+" (-51), SelectOptionInt.mk "<C#" (-50),
    SelectOptionInt.mk "vC#" (-49), SelectOptionInt.mk " C#" (-48),
    SelectOptionInt.mk "^C#" (-47), SelectOptionInt.mk ">C#" (-46),
    SelectOptionInt.mk " Dd" (-45), SelectOptionInt.mk "<D" (-44), SelectOptionInt.mk "vD" (-43),
    SelectOptionInt.mk " D" (-42), SelectOptionInt.mk "^D" (-41), SelectOptionInt.mk ">D" (-40),
    SelectOptionInt.mk " D+" (-39), SelectOptionInt.mk "<Eb" (-38),
    SelectOptionInt.mk "vEb" (-37), SelectOptionInt.mk " Eb" (-36),
    SelectOptionInt.mk "^Eb" (-35), SelectOptionInt.mk ">Eb" (-34),
    SelectOptionInt.mk " Ed" (-33), SelectOptionInt.mk "<E" (-32), SelectOptionInt.mk "vE" (-31),
    SelectOptionInt.mk " E" (-30), SelectOptionInt.mk "^E" (-29), SelectOptionInt.mk ">E" (-28),
    SelectOptionInt.mk " E+" (-27), SelectOptionInt.mk "<F" (-26), SelectOptionInt.mk "vF" (-25),
    SelectOptionInt.mk " F" (-24), SelectOptionInt.mk "^F" (-23), SelectOptionInt.mk ">F" (-22),
    SelectOptionInt.mk " F+" (-21), SelectOptionInt.mk "<F#" (-20),
    SelectOptionInt.mk "vF#" (-19), SelectOptionInt.mk " F#" (-18),
    SelectOptionInt.mk "^F#" (-17), SelectOptionInt.mk ">F#" (-16),
    SelectOptionInt.mk " Gd" (-15), SelectOptionInt.mk "<G" (-14), SelectOptionInt.mk "vG" (-13),
    SelectOptionInt.mk " G" (-12), SelectOptionInt.mk "^G" (-11), SelectOptionInt.mk ">G" (-10),
    SelectOptionInt.mk " G+" (-9), SelectOptionInt.mk "<G#" (-8), SelectOptionInt.mk "vG#" (-7),
    SelectOptionInt.mk " G#" (-6), SelectOptionInt.mk "^G#" (-5), SelectOptionInt.mk ">G#" (-4),
    SelectOptionInt.mk " Ad" (-3), SelectOptionInt.mk "<A" (-2), SelectOptionInt.mk "vA" (-1),
    SelectOptionInt.mk " A" 0, SelectOptionInt.mk "^A" 1, SelectOptionInt.mk ">A" 2,
    SelectOptionInt.mk " A+" 3, SelectOptionInt.mk "<Bb" 4, SelectOptionInt.mk "vBb" 5,
    SelectOptionInt.mk " Bb" 6, SelectOptionInt.mk "^Bb" 7, SelectOptionInt.mk ">Bb" 8,
    SelectOptionInt.mk " Bd" 9, SelectOptionInt.mk "<B" 10, SelectOptionInt.mk "vB" 11,
    SelectOptionInt.mk " B" 12, SelectOptionInt.mk "^B" 13, SelectOptionInt.mk ">B" 14,
    SelectOptionInt.mk " Cd" 15, SelectOptionInt.mk "<C" 16, SelectOptionInt.mk "vC" 17],
  tuningDef.mk "Bohlen-Pierce" 13 [
    SelectOptionInt.mk "C" (-10), SelectOptionInt.mk "Db" (-9), SelectOptionInt.mk "D" (-8),
    SelectOptionInt.mk "E" (-7), SelectOptionInt.mk "F" (-6), SelectOptionInt.mk "Gb" (-5),
    SelectOptionInt.mk "G" (-4), SelectOptionInt.mk "H" (-3), SelectOptionInt.mk "Jb" (-2),
    SelectOptionInt.mk "J" (-1), SelectOptionInt.mk "A" 0, SelectOptionInt.mk "Bb" 1,
    SelectOptionInt.mk "B" 2],
  tuningDef.mk "Carlos Alpha" 9 [
    SelectOptionInt.mk "I" 0, SelectOptionInt.mk "I#" 1, SelectOptionInt.mk "II-" 2,
    SelectOptionInt.mk "II+" 3, SelectOptionInt.mk "III" 4, SelectOptionInt.mk "III#" 5,
    SelectOptionInt.mk "IV-" 6, SelectOptionInt.mk "IV+" 7, SelectOptionInt.mk "Ib" 8],
  tuningDef.mk "Carlos Beta" 11 [
    SelectOptionInt.mk "I" 0, SelectOptionInt.mk "I#" 1, SelectOptionInt.mk "IIb" 2,
    SelectOptionInt.mk "II" 3, SelectOptionInt.mk "II#" 4, SelectOptionInt.mk "III" 5,
    SelectOptionInt.mk "III#" 6, SelectOptionInt.mk "IVb" 7, SelectOptionInt.mk "IV" 8,
    SelectOptionInt.mk "IV#" 9, SelectOptionInt.mk "Ib" 10],
  tuningDef.mk "Carlos Gamma" 20 [
    SelectOptionInt.mk " I" 0, SelectOptionInt.mk "^I" 1, SelectOptionInt.mk " IIb" 2,
    SelectOptionInt.mk "^IIb" 3, SelectOptionInt.mk " I#" 4, SelectOptionInt.mk "^I#" 5,
    SelectOptionInt.mk " II" 6, SelectOptionInt.mk "^II" 7, SelectOptionInt.mk " III" 8,
    SelectOptionInt.mk "^III" 9, SelectOptionInt.mk " IVb" 10, SelectOptionInt.mk "^IVb" 11,
    SelectOptionInt.mk " III#" 12, SelectOptionInt.mk "^III#" 13, SelectOptionInt.mk " IV" 14,
    SelectOptionInt.mk "^IV" 15, SelectOptionInt.mk " Ib" 16, SelectOptionInt.mk "^Ib" 17,
    SelectOptionInt.mk " IV#" 18, SelectOptionInt.mk "^IV#" 19]
]

/-! ## microtonal.h: scales -/

/-- A scale pattern: the steps between consecutive degrees. `pattern` holds
the initialised entries of the zero-filled `MAX_SCALE_DIVISIONS`-byte array. -/
structure scaleDef where
  name : String
  tuning : Nat
  pattern : List Nat

def scaleOptions : List scaleDef := [
  scaleDef.mk "None" ALL_TUNINGS [0],
  scaleDef.mk "Major" TUNING_12EDO [2, 2, 1, 2, 2, 2, 1],
  scaleDef.mk "Minor, natural" TUNING_12EDO [2, 1, 2, 2, 1, 2, 2],
  scaleDef.mk "Minor, melodic" TUNING_12EDO [2, 1, 2, 2, 2, 2, 1],
  scaleDef.mk "Minor, harmonic" TUNING_12EDO [2, 1, 2, 2, 1, 3, 1],
  scaleDef.mk "Pentatonic, major" TUNING_12EDO [2, 2, 3, 2, 3],
  scaleDef.mk "Pentatonic, minor" TUNING_12EDO [3, 2, 2, 3, 2],
  scaleDef.mk "Blues" TUNING_12EDO [3, 1, 1, 1, 1, 3, 2],
  scaleDef.mk "Double Harmonic" TUNING_12EDO [1, 3, 1, 2, 1, 3, 1],
  scaleDef.mk "Phrygian" TUNING_12EDO [1, 2, 2, 2, 1, 2, 2],
  scaleDef.mk "Phrygian Dominant" TUNING_12EDO [1, 3, 1, 2, 1, 2, 2],
  scaleDef.mk "Dorian" TUNING_12EDO [2, 1, 2, 2, 2, 1, 2],
  scaleDef.mk "Lydian" TUNING_12EDO [2, 2, 2, 1, 2, 2, 1],
  scaleDef.mk "Lydian Dominant" TUNING_12EDO [2, 2, 2, 1, 2, 1, 2],
  scaleDef.mk "Mixolydian" TUNING_12EDO [2, 2, 1, 2, 2, 1, 2],
  scaleDef.mk "Locrian" TUNING_12EDO [1, 2, 2, 1, 2, 2, 2],
  scaleDef.mk "Whole tone" TUNING_12EDO [2, 2, 2, 2, 2, 2],
  scaleDef.mk "Octatonic" TUNING_12EDO [2, 1, 2, 1, 2, 1, 2, 1],
  scaleDef.mk "Diatonic" TUNING_17EDO [3, 3, 1, 3, 3, 3, 1],
  scaleDef.mk "Pentatonic" TUNING_17EDO [3, 3, 4, 3, 4],
  scaleDef.mk "Harmonic" TUNING_17EDO [3, 2, 3, 2, 2, 2, 3],
  scaleDef.mk "Husayni maqam" TUNING_17EDO [2, 2, 3, 3, 2, 1, 1, 3],
  scaleDef.mk "Blues" TUNING_17EDO [4, 3, 1, 1, 1, 4, 3],
  scaleDef.mk "Hydra" TUNING_17EDO [3, 3, 1, 1, 2, 3, 2, 1, 1],
  scaleDef.mk "Diatonic" TUNING_19EDO [3, 3, 2, 3, 3, 3, 2],
  scaleDef.mk "Pentatonic" TUNING_19EDO [3, 3, 5, 3, 5],
  scaleDef.mk "Semaphore" TUNING_19EDO [3, 1, 3, 1, 3, 3, 1, 3, 1],
  scaleDef.mk "Negri" TUNING_19EDO [2, 2, 2, 2, 2, 1, 2, 2, 2, 2],
  scaleDef.mk "Sensi" TUNING_19EDO [2, 2, 1, 2, 2, 2, 1, 2, 2, 2, 1],
  scaleDef.mk "Kleismic" TUNING_19EDO [1, 3, 1, 1, 3, 1, 1, 3, 1, 3, 1],
  scaleDef.mk "Magic" TUNING_19EDO [3, 1, 1, 1, 3, 1, 1, 1, 3, 1, 1, 1, 1],
  scaleDef.mk "Kind of blues" TUNING_19EDO [4, 4, 1, 2, 4, 4],
  scaleDef.mk "Diatonic" TUNING_22EDO [4, 4, 1, 4, 4, 4, 1],
  scaleDef.mk "Pentatonic" TUNING_22EDO [4, 4, 5, 4, 5],
  scaleDef.mk "Orwell" TUNING_22EDO [3, 2, 3, 2, 3, 2, 3, 2, 2],
  scaleDef.mk "Porcupine" TUNING_22EDO [4, 3, 3, 3, 3, 3, 3],
  scaleDef.mk "Pajara" TUNING_22EDO [2, 2, 3, 2, 2, 2, 3, 2, 2, 2],
  scaleDef.mk "Diatonic 12" TUNING_24EDO [4, 4, 2, 4, 4, 4, 2],
  scaleDef.mk "Diatonic Soft" TUNING_24EDO [3, 5, 2, 3, 5, 4, 2],
  scaleDef.mk "Diatonic Neutral" TUNING_24EDO [4, 3, 3, 4, 3, 4, 3],
  scaleDef.mk "Pentatonic (12)" TUNING_24EDO [4, 4, 6, 4, 6],
  scaleDef.mk "Pentatonic (Haba)" TUNING_24EDO [5, 5, 5, 5, 4],
  scaleDef.mk "Invert Pentatonic" TUNING_24EDO [6, 3, 6, 6, 3],
  scaleDef.mk "Rast maqam" TUNING_24EDO [4, 3, 3, 4, 4, 2, 1, 3],
  scaleDef.mk "Bayati maqam" TUNING_24EDO [3, 3, 4, 4, 2, 1, 3, 4],
  scaleDef.mk "Hijaz maqam" TUNING_24EDO [2, 6, 2, 4, 2, 1, 3, 4],
  scaleDef.mk "8-EDO" TUNING_24EDO [3, 3, 3, 3, 3, 3, 3, 3],
  scaleDef.mk "Wyschnegradsky" TUNING_24EDO [2, 2, 2, 2, 2, 1, 2, 2, 2, 2, 2, 2, 1],
  scaleDef.mk "Diatonic" TUNING_31EDO [5, 5, 3, 5, 5, 5, 3],
  scaleDef.mk "Pentatonic" TUNING_31EDO [5, 5, 8, 5, 8],
  scaleDef.mk "Harmonic" TUNING_31EDO [5, 5, 4, 4, 4, 3, 3, 3],
  scaleDef.mk "Mavila" TUNING_31EDO [5, 3, 3, 3, 5, 3, 3, 3, 3],
  scaleDef.mk "Quartal" TUNING_31EDO [2, 2, 7, 2, 2, 7, 2, 7],
  scaleDef.mk "Orwell" TUNING_31EDO [4, 3, 4, 3, 4, 3, 4, 3, 3],
  scaleDef.mk "Neutral" TUNING_31EDO [4, 4, 4, 4, 4, 4, 4, 3],
  scaleDef.mk "Miracle" TUNING_31EDO [4, 3, 3, 3, 3, 3, 3, 3, 3, 3],
  scaleDef.mk "Diatonic" TUNING_41EDO [7, 7, 3, 7, 7, 7, 3],
  scaleDef.mk "Pentatonic" TUNING_41EDO [7, 7, 10, 7, 10],
  scaleDef.mk "Pure major" TUNING_41EDO [7, 6, 4, 7, 6, 7, 4],
  scaleDef.mk "5-limit chromatic" TUNING_41EDO [4, 3, 4, 2, 4, 3, 4, 4, 2, 4, 3, 4],
  scaleDef.mk "7-limit chromatic" TUNING_41EDO [3, 4, 2, 4, 4, 3, 4, 2, 4, 3, 3, 4],
  scaleDef.mk "Harmonic" TUNING_41EDO [5, 4, 4, 4, 4, 3, 3, 3, 3, 3, 2, 3],
  scaleDef.mk "Middle East-ish" TUNING_41EDO [7, 5, 7, 5, 5, 7, 5],
  scaleDef.mk "Thai" TUNING_41EDO [6, 6, 6, 6, 6, 6, 5],
  scaleDef.mk "Slendro" TUNING_41EDO [8, 8, 8, 8, 9],
  scaleDef.mk "Pelog / Mavila" TUNING_41EDO [8, 5, 5, 8, 5, 5, 5],
  scaleDef.mk "Diatonic" TUNING_53EDO [9, 9, 4, 9, 9, 9, 4],
  scaleDef.mk "Pentatonic" TUNING_53EDO [9, 9, 13, 9, 13],
  scaleDef.mk "Rast makam" TUNING_53EDO [9, 8, 5, 9, 9, 4, 4, 5],
  scaleDef.mk "Usshak makam" TUNING_53EDO [7, 6, 9, 9, 4, 4, 5, 9],
  scaleDef.mk "Hicaz makam" TUNING_53EDO [5, 12, 5, 9, 4, 9, 9],
  scaleDef.mk "Orwell" TUNING_53EDO [7, 5, 7, 5, 7, 5, 7, 5, 5],
  scaleDef.mk "Sephiroth" TUNING_53EDO [6, 5, 5, 6, 5, 5, 6, 5, 5, 5],
  scaleDef.mk "Smitonic" TUNING_53EDO [11, 11, 3, 11, 3, 11, 3],
  scaleDef.mk "Slendric" TUNING_53EDO [7, 3, 7, 3, 7, 3, 7, 3, 7, 3, 3],
  scaleDef.mk "Semiquartal" TUNING_53EDO [9, 2, 9, 2, 9, 2, 9, 2, 9],
  scaleDef.mk "Diatonic" TUNING_72EDO [12, 12, 6, 12, 12, 12, 6],
  scaleDef.mk "Pentatonic" TUNING_72EDO [12, 12, 18, 12, 18],
  scaleDef.mk "Ben Johnston" TUNING_72EDO [6, 6, 6, 5, 5, 5, 9, 8, 4, 4, 7, 7],
  scaleDef.mk "18-EDO" TUNING_72EDO [4, 4, 4, 4, 4, 4, 4, 4, 4, 4, 4, 4, 4, 4, 4, 4, 4, 4],
  scaleDef.mk "Miracle" TUNING_72EDO [5, 2, 5, 2, 5, 2, 2, 5, 2, 5, 2, 5, 2, 5, 2, 5, 2, 5, 2, 5, 2],
  scaleDef.mk "Marvolo" TUNING_72EDO [5, 5, 5, 5, 5, 5, 5, 2, 5, 5, 5, 5, 5, 5],
  scaleDef.mk "Catakleismic" TUNING_72EDO [4, 7, 4, 4, 4, 7, 4, 4, 4, 7, 4, 4, 4, 7, 4],
  scaleDef.mk "Palace" TUNING_72EDO [10, 9, 11, 12, 10, 9, 11],
  scaleDef.mk "Lambda" TUNING_BP [2, 1, 2, 1, 2, 1, 2, 1, 1],
  scaleDef.mk "Super Meta Lydian" TUNING_ALPHA [3, 2, 2, 2],
  scaleDef.mk "Super Meta Lydian" TUNING_BETA [3, 3, 3, 2],
  scaleDef.mk "Super Meta Lydian" TUNING_GAMMA [6, 5, 5, 4]
]

/-- `sizeof(scaleOptions) / sizeof(scaleDef)` -/
def scaleCount : Nat := scaleOptions.length

/-- The catalog invariant of a scale entry: its tuning is a catalog tuning and
its step-gaps sum to that tuning's `cycleLength`. -/
def scaleDef.fillsCycle (s : scaleDef) : Bool :=
  match tuningOptions[s.tuning]? with
  | some t => s.pattern.sum == t.cycleLength
  | none => false

/-- Modelled from the spec: the scale-membership test, whose code is not among
the sources. A degree is in the scale iff it is the sum of some prefix of the
step-gaps, starting from zero; the "no scale" entry contains every degree. -/
def scaleDef.inScale (s : scaleDef) (keyDegree : Nat) : Bool :=
  s.tuning == ALL_TUNINGS || (List.scanl (· + ·) 0 s.pattern).contains keyDegree

/-! ## constants.h: grid size, color values -/

def COLCOUNT : Nat := 10
def ROWCOUNT : Nat := 16
def VALUE_BLACK : Nat := 0
def VALUE_LOW : Nat := 127
def VALUE_SHADE : Nat := 164
def VALUE_NORMAL : Nat := 180
def VALUE_FULL : Nat := 255
def SAT_BW : Nat := 0
def SAT_TINT : Nat := 32
def SAT_DULL : Nat := 85
def SAT_MODERATE : Nat := 120
def SAT_VIVID : Nat := 255
def HUE_NONE : Rat := 0
def HUE_RED : Rat := 0
def HUE_ORANGE : Rat := 36
def HUE_YELLOW : Rat := 72
def HUE_LIME : Rat := 108
def HUE_GREEN : Rat := 144
def HUE_CYAN : Rat := 180
def HUE_BLUE : Rat := 216
def HUE_INDIGO : Rat := 252
def HUE_PURPLE : Rat := 288
def HUE_MAGENTA : Rat := 324

/-! ## microtonal.h: layouts -/

/-- An isomorphic layout. `acrossSteps` and `dnLeftSteps` are `int8_t`,
`hexMiddleC` and `tuning` bytes. -/
structure layoutDef where
  name : String
  isPortrait : Bool
  hexMiddleC : Nat
  acrossSteps : Int
  dnLeftSteps : Int
  tuning : Nat

def layoutOptions : List layoutDef := [
  layoutDef.mk "Wicki-Hayden" true 64 2 (-7) TUNING_12EDO,
  layoutDef.mk "Harmonic Table" false 75 (-7) 3 TUNING_12EDO,
  layoutDef.mk "Janko" false 65 (-1) (-1) TUNING_12EDO,
  layoutDef.mk "Gerhard" false 65 (-1) (-3) TUNING_12EDO,
  layoutDef.mk "Accordion C-sys." true 75 2 (-3) TUNING_12EDO,
  layoutDef.mk "Accordion B-sys." true 64 1 (-3) TUNING_12EDO,
  layoutDef.mk "Full Gamut" true 65 1 (-9) TUNING_17EDO,
  layoutDef.mk "Bosanquet-Wilson" false 65 (-2) (-1) TUNING_17EDO,
  layoutDef.mk "Neutral Thirds A" false 65 (-1) (-2) TUNING_17EDO,
  layoutDef.mk "Neutral Thirds B" false 65 1 (-3) TUNING_17EDO,
  layoutDef.mk "Full Gamut" true 65 1 (-9) TUNING_19EDO,
  layoutDef.mk "Bosanquet-Wilson" false 65 (-1) (-2) TUNING_19EDO,
  layoutDef.mk "Kleismic" false 65 (-1) (-4) TUNING_19EDO,
  layoutDef.mk "Full Gamut" true 65 1 (-8) TUNING_22EDO,
  layoutDef.mk "Bosanquet-Wilson" false 65 (-3) (-1) TUNING_22EDO,
  layoutDef.mk "Porcupine" false 65 1 (-4) TUNING_22EDO,
  layoutDef.mk "Full Gamut" true 65 1 (-9) TUNING_24EDO,
  layoutDef.mk "Bosanquet-Wilson" false 65 (-1) (-3) TUNING_24EDO,
  layoutDef.mk "Inverted" false 65 1 (-4) TUNING_24EDO,
  layoutDef.mk "Full Gamut" true 65 1 (-7) TUNING_31EDO,
  layoutDef.mk "Bosanquet-Wilson" false 65 (-2) (-3) TUNING_31EDO,
  layoutDef.mk "Double Bosanquet" false 65 (-1) (-4) TUNING_31EDO,
  layoutDef.mk "Anti-Double Bos." false 65 1 (-5) TUNING_31EDO,
  layoutDef.mk "Full Gamut" false 65 1 (-8) TUNING_41EDO,
  layoutDef.mk "Bosanquet-Wilson" false 65 (-4) (-3) TUNING_41EDO,
  layoutDef.mk "Gerhard" false 65 3 (-10) TUNING_41EDO,
  layoutDef.mk "Baldy" false 65 (-1) (-6) TUNING_41EDO,
  layoutDef.mk "Rodan" true 65 (-1) (-7) TUNING_41EDO,
  layoutDef.mk "Wicki-Hayden" true 64 9 (-31) TUNING_53EDO,
  layoutDef.mk "Bosanquet-Wilson" false 65 (-5) (-4) TUNING_53EDO,
  layoutDef.mk "Kleismic A" false 65 (-8) (-3) TUNING_53EDO,
  layoutDef.mk "Kleismic B" false 65 (-5) (-3) TUNING_53EDO,
  layoutDef.mk "Harmonic Table" false 75 (-31) 14 TUNING_53EDO,
  layoutDef.mk "Buzzard" false 65 (-9) (-1) TUNING_53EDO,
  layoutDef.mk "Full Gamut" true 65 1 (-9) TUNING_72EDO,
  layoutDef.mk "Expanded Janko" false 65 (-1) (-6) TUNING_72EDO,
  layoutDef.mk "Full Gamut" true 65 1 (-9) TUNING_BP,
  layoutDef.mk "Standard" false 65 (-2) (-1) TUNING_BP,
  layoutDef.mk "Full Gamut" true 65 1 (-9) TUNING_ALPHA,
  layoutDef.mk "Compressed" false 65 (-2) (-1) TUNING_ALPHA,
  layoutDef.mk "Full Gamut" true 65 1 (-9) TUNING_BETA,
  layoutDef.mk "Compressed" false 65 (-2) (-1) TUNING_BETA,
  layoutDef.mk "Full Gamut" true 65 1 (-9) TUNING_GAMMA,
  layoutDef.mk "Compressed" false 65 (-2) (-1) TUNING_GAMMA
]

/-- `sizeof(layoutOptions) / sizeof(layoutDef)` -/
def layoutCount : Nat := layoutOptions.length

/-- Modelled from the spec: the tuning-step offset of the hex at `(row, col)`,
`row * acrossSteps + col * dnLeftSteps`; no source file computes it. -/
def layoutDef.stepsFromAnchor (l : layoutDef) (row col : Nat) : Int :=
  (row : Int) * l.acrossSteps + (col : Int) * l.dnLeftSteps

/-! ## microtonal.h: palettes -/

/-- A hue, saturation, value triplet. `hue` is a `float` in the source; it is
only ever copied here, and every catalog hue is a whole number of degrees, so it
is kept as a rational number. `sat` and `val` are bytes. -/
structure colorDef where
  hue : Rat
  sat : Nat
  val : Nat
deriving DecidableEq

/-- `tint()` -/
def colorDef.tint (c : colorDef) : colorDef :=
  { hue := c.hue,
    sat := if c.sat > SAT_MODERATE then SAT_MODERATE else c.sat,
    val := VALUE_FULL }

/-- `shade()` -/
def colorDef.shade (c : colorDef) : colorDef :=
  { hue := c.hue,
    sat := if c.sat > SAT_DULL then SAT_DULL else c.sat,
    val := VALUE_LOW }

/-- A palette. `swatch` and `colorNum` hold the initialised entries of their
`MAX_SCALE_DIVISIONS`-element arrays, the rest of which is zero-filled. -/
structure paletteDef where
  swatch : List colorDef
  colorNum : List Nat

/-- `return swatch[colorNum[givenStepFromC] - 1];` with both reads checked
against the array bounds. -/
def paletteDef.getColor (p : paletteDef) (givenStepFromC : Nat) : Option colorDef :=
  if givenStepFromC < MAX_SCALE_DIVISIONS then
    let index : Int := ((p.colorNum.getD givenStepFromC 0 : Nat) : Int) - 1
    if 0 ≤ index ∧ index < (MAX_SCALE_DIVISIONS : Int) then
      some (p.swatch.getD index.toNat (colorDef.mk 0 0 0))
    else
      none
  else
    none

def palette : List paletteDef := [
  -- 12 EDO
  paletteDef.mk [
      colorDef.mk HUE_NONE SAT_BW VALUE_NORMAL,
      colorDef.mk HUE_BLUE SAT_DULL VALUE_SHADE,
      colorDef.mk HUE_CYAN SAT_DULL VALUE_NORMAL,
      colorDef.mk HUE_INDIGO SAT_VIVID VALUE_NORMAL]
    [
      1, 2, 1, 2, 1, 3, 4, 3, 4, 3, 4, 3],
  -- 17 EDO
  paletteDef.mk [
      colorDef.mk HUE_NONE SAT_BW VALUE_NORMAL,
      colorDef.mk HUE_INDIGO SAT_VIVID VALUE_NORMAL,
      colorDef.mk HUE_RED SAT_VIVID VALUE_NORMAL]
    [
      1, 2, 3, 1, 2, 3, 1, 1, 2, 3, 1, 2, 3, 1, 2, 3, 1],
  -- 19 EDO
  paletteDef.mk [
      colorDef.mk HUE_NONE SAT_BW VALUE_NORMAL,
      colorDef.mk HUE_YELLOW SAT_VIVID VALUE_NORMAL,
      colorDef.mk HUE_BLUE SAT_VIVID VALUE_NORMAL,
      colorDef.mk HUE_MAGENTA SAT_VIVID VALUE_NORMAL]
    [
      1, 2, 3, 1, 2, 3, 1, 4, 1, 2, 3, 1, 2, 3, 1, 2, 3, 1, 4],
  -- 22 EDO
  paletteDef.mk [
      colorDef.mk HUE_NONE SAT_BW VALUE_NORMAL,
      colorDef.mk HUE_BLUE SAT_VIVID VALUE_NORMAL,
      colorDef.mk HUE_MAGENTA SAT_VIVID VALUE_NORMAL,
      colorDef.mk HUE_YELLOW SAT_VIVID VALUE_NORMAL]
    [
      1, 2, 3, 4, 1, 2, 3, 4, 1, 1, 2, 3, 4, 1, 2, 3, 4, 1, 2, 3, 4, 1],
  -- 24 EDO
  paletteDef.mk [
      colorDef.mk HUE_NONE SAT_BW VALUE_NORMAL,
      colorDef.mk HUE_LIME SAT_DULL VALUE_SHADE,
      colorDef.mk HUE_CYAN SAT_VIVID VALUE_NORMAL,
      colorDef.mk HUE_INDIGO SAT_DULL VALUE_SHADE,
      colorDef.mk HUE_CYAN SAT_DULL VALUE_SHADE]
    [
      1, 2, 3, 4, 1, 2, 3, 4, 1, 5, 1, 2, 3, 4, 1, 2, 3, 4, 1, 2, 3, 4, 1, 5],
  -- 31 EDO
  paletteDef.mk [
      colorDef.mk HUE_NONE SAT_BW VALUE_NORMAL,
      colorDef.mk HUE_RED SAT_DULL VALUE_NORMAL,
      colorDef.mk HUE_YELLOW SAT_DULL VALUE_SHADE,
      colorDef.mk HUE_CYAN SAT_DULL VALUE_SHADE,
      colorDef.mk HUE_INDIGO SAT_DULL VALUE_NORMAL,
      colorDef.mk HUE_RED SAT_DULL VALUE_SHADE,
      colorDef.mk HUE_INDIGO SAT_DULL VALUE_SHADE]
    [
      1, 2, 3, 4, 5, 1, 2, 3, 4, 5, 1, 6, 7, 1, 2, 3, 4, 5, 1, 2, 3, 4, 5, 1, 2, 3, 4, 5, 1, 6,
      7],
  -- 41 EDO
  paletteDef.mk [
      colorDef.mk HUE_NONE SAT_BW VALUE_NORMAL,
      colorDef.mk HUE_RED SAT_DULL VALUE_NORMAL,
      colorDef.mk HUE_BLUE SAT_VIVID VALUE_NORMAL,
      colorDef.mk HUE_CYAN SAT_DULL VALUE_SHADE,
      colorDef.mk HUE_GREEN SAT_DULL VALUE_SHADE,
      colorDef.mk HUE_MAGENTA SAT_DULL VALUE_NORMAL,
      colorDef.mk HUE_YELLOW SAT_VIVID VALUE_NORMAL]
    [
      1, 2, 3, 4, 5, 6, 7, 1, 2, 3, 4, 5, 6, 7, 1, 2, 3, 1, 2, 3, 4, 5, 6, 7, 1, 2, 3, 4, 5, 6,
      7, 1, 2, 3, 4, 5, 6, 7, 1, 6, 7],
  -- 53 EDO
  paletteDef.mk [
      colorDef.mk HUE_NONE SAT_BW VALUE_NORMAL,
      colorDef.mk HUE_ORANGE SAT_VIVID VALUE_NORMAL,
      colorDef.mk HUE_MAGENTA SAT_DULL VALUE_NORMAL,
      colorDef.mk HUE_INDIGO SAT_VIVID VALUE_NORMAL,
      colorDef.mk HUE_GREEN SAT_VIVID VALUE_SHADE,
      colorDef.mk HUE_YELLOW SAT_VIVID VALUE_SHADE,
      colorDef.mk HUE_RED SAT_VIVID VALUE_NORMAL,
      colorDef.mk HUE_PURPLE SAT_DULL VALUE_NORMAL,
      colorDef.mk HUE_CYAN SAT_VIVID VALUE_SHADE]
    [
      1, 2, 3, 4, 5, 6, 7, 8, 9, 1, 2, 3, 4, 5, 6, 7, 8, 9, 1, 2, 3, 9, 1, 2, 3, 4, 5, 6, 7, 8,
      9, 1, 2, 3, 4, 5, 6, 7, 8, 9, 1, 2, 3, 4, 5, 6, 7, 8, 9, 1, 2, 3, 9],
  -- 72 EDO
  paletteDef.mk [
      colorDef.mk HUE_NONE SAT_BW VALUE_NORMAL,
      colorDef.mk HUE_GREEN SAT_DULL VALUE_SHADE,
      colorDef.mk HUE_RED SAT_DULL VALUE_SHADE,
      colorDef.mk HUE_PURPLE SAT_DULL VALUE_SHADE,
      colorDef.mk HUE_BLUE SAT_DULL VALUE_SHADE,
      colorDef.mk HUE_YELLOW SAT_DULL VALUE_SHADE,
      colorDef.mk HUE_INDIGO SAT_VIVID VALUE_SHADE]
    [
      1, 2, 3, 4, 5, 6, 7, 2, 3, 4, 5, 6, 1, 2, 3, 4, 5, 6, 7, 2, 3, 4, 5, 6, 1, 2, 3, 4, 5, 6,
      1, 2, 3, 4, 5, 6, 7, 2, 3, 4, 5, 6, 1, 2, 3, 4, 5, 6, 7, 2, 3, 4, 5, 6, 1, 2, 3, 4, 5, 6,
      7, 2, 3, 4, 5, 6, 1, 2, 3, 4, 5, 6],
  -- Bohlen-Pierce
  paletteDef.mk [
      colorDef.mk HUE_NONE SAT_BW VALUE_NORMAL,
      colorDef.mk HUE_INDIGO SAT_VIVID VALUE_NORMAL,
      colorDef.mk HUE_RED SAT_VIVID VALUE_NORMAL]
    [
      1, 2, 3, 1, 2, 3, 1, 1, 2, 3, 1, 2, 3],
  -- Carlos Alpha
  paletteDef.mk [
      colorDef.mk HUE_NONE SAT_BW VALUE_NORMAL,
      colorDef.mk HUE_YELLOW SAT_VIVID VALUE_NORMAL,
      colorDef.mk HUE_INDIGO SAT_VIVID VALUE_NORMAL,
      colorDef.mk HUE_LIME SAT_VIVID VALUE_NORMAL,
      colorDef.mk HUE_RED SAT_VIVID VALUE_NORMAL,
      colorDef.mk HUE_CYAN SAT_VIVID VALUE_NORMAL]
    [
      1, 2, 3, 4, 1, 2, 3, 5, 6],
  -- Carlos Beta
  paletteDef.mk [
      colorDef.mk HUE_NONE SAT_BW VALUE_NORMAL,
      colorDef.mk HUE_INDIGO SAT_VIVID VALUE_NORMAL,
      colorDef.mk HUE_RED SAT_VIVID VALUE_NORMAL,
      colorDef.mk HUE_MAGENTA SAT_DULL VALUE_NORMAL]
    [
      1, 2, 3, 1, 4, 1, 2, 3, 1, 2, 3],
  -- Carlos Gamma
  paletteDef.mk [
      colorDef.mk HUE_NONE SAT_BW VALUE_NORMAL,
      colorDef.mk HUE_RED SAT_VIVID VALUE_NORMAL,
      colorDef.mk HUE_BLUE SAT_VIVID VALUE_NORMAL,
      colorDef.mk HUE_YELLOW SAT_VIVID VALUE_NORMAL,
      colorDef.mk HUE_PURPLE SAT_VIVID VALUE_NORMAL,
      colorDef.mk HUE_GREEN SAT_VIVID VALUE_NORMAL]
    [
      1, 4, 2, 5, 3, 6, 1, 4, 1, 4, 2, 5, 3, 6, 1, 4, 2, 5, 3, 6]
]

/-! ## microtonal.h: presets -/

/-- The live configuration; all numeric fields are `int`. -/
structure presetDef where
  presetName : String
  tuningIndex : Int
  layoutIndex : Int
  scaleIndex : Int
  keyStepsFromA : Int
  transpose : Int

/-- `return tuningOptions[tuningIndex];` -/
def presetDef.tuning (p : presetDef) : Option tuningDef :=
  if 0 ≤ p.tuningIndex then tuningOptions[p.tuningIndex.toNat]? else none

/-- `return scaleOptions[scaleIndex];` -/
def presetDef.scale (p : presetDef) : Option scaleDef :=
  if 0 ≤ p.scaleIndex then scaleOptions[p.scaleIndex.toNat]? else none

/-- `return tuning().spanCtoA() - keyStepsFromA;` -/
def presetDef.keyStepsFromC (p : presetDef) : Option Int :=
  match p.tuning with
  | none => none
  | some t => some (intSub t.spanCtoA p.keyStepsFromA)

/-- `return givenStepsFromC + tuning().spanCtoA() + transpose;` -/
def presetDef.pitchRelToA4 (p : presetDef) (givenStepsFromC : Int) : Option Int :=
  match p.tuning with
  | none => none
  | some t => some (intAdd (intAdd givenStepsFromC t.spanCtoA) p.transpose)

/-- `return positiveMod(givenStepsFromC + keyStepsFromC(), tuning().cycleLength);` -/
def presetDef.keyDegree (p : presetDef) (givenStepsFromC : Int) : Option Int :=
  match p.keyStepsFromC, p.tuning with
  | some k, some t => positiveMod (intAdd givenStepsFromC k) t.cycleLength
  | _, _ => none

/-- `return layoutOptions[layoutIndex];` -/
def presetDef.layout (p : presetDef) : Option layoutDef :=
  if 0 ≤ p.layoutIndex then layoutOptions[p.layoutIndex.toNat]? else none

/-- The loop `while (layoutOptions[temp].tuning < tuningIndex) { temp++; }`
followed by `return temp;`, with `rest` the part of the array from index `temp`
on. Reading past the end of the array has no result. -/
def layoutsBeginLoop (tuningIndex : Int) : List layoutDef → Nat → Option Nat
  | [], _ => none
  | l :: rest, temp =>
    if (l.tuning : Int) < tuningIndex then layoutsBeginLoop tuningIndex rest (temp + 1)
    else some temp

/-- `layoutsBegin()` -/
def presetDef.layoutsBegin (p : presetDef) : Option Nat :=
  if p.tuningIndex = (TUNING_12EDO : Int) then
    some 0
  else
    layoutsBeginLoop p.tuningIndex layoutOptions 0

/-! ## rotaryKnob.h, rotaryKnob.cpp -/

/-- `const byte stateTable[7][4]`: row = state of the turn in progress,
column = the two-bit sample `(B << 1) | A`. -/
def stateTable : List (List Nat) := [
  [0, 4, 1, 0],
  [2, 0, 1, 0], [2, 3, 1, 0], [2, 3, 0, 8],
  [5, 4, 0, 0], [5, 4, 6, 0], [5, 0, 6, 16]
]

/-- The members of `rotaryKnob` that its methods read or write. `turnBuffer` is
an `int`; the pins and `state` are bytes. -/
structure rotaryKnob where
  turnBuffer : Int
  Apin : Nat
  Bpin : Nat
  Cpin : Nat
  state : Nat
  clicked : Bool
  bufferTurns : Bool
deriving DecidableEq

/-- The constructor `rotaryKnob(_Apin, _Bpin, _Cpin, _bufferTurns)`. -/
def rotaryKnob.new (_Apin _Bpin _Cpin : Nat) (_bufferTurns : Bool) : rotaryKnob :=
  { turnBuffer := 0, Apin := _Apin, Bpin := _Bpin, Cpin := _Cpin, state := 0,
    clicked := true, bufferTurns := _bufferTurns }

/-- `invertDirection()`: exchange the A and B pins. -/
def rotaryKnob.invertDirection (k : rotaryKnob) : rotaryKnob :=
  let temp := k.Apin
  { k with Apin := k.Bpin, Bpin := temp }

/-- `update()`; `digitalRead` gives the level of each pin at the time of the
call. The table read has no result when the row index is outside the table. -/
def rotaryKnob.update (k : rotaryKnob) (digitalRead : Nat → Bool) : Option rotaryKnob :=
  let prevState := k.state &&& 7
  let getRotation := ((digitalRead k.Bpin).toNat <<< 1) ||| (digitalRead k.Apin).toNat
  match stateTable[prevState]? with
  | none => none
  | some row =>
    match row[getRotation]? with
    | none => none
    | some state =>
      let turnBuffer := intAdd k.turnBuffer (((state &&& 8) >>> 3 : Nat) : Int)
      let turnBuffer := intSub turnBuffer (((state &&& 16) >>> 4 : Nat) : Int)
      some { k with state := state, turnBuffer := turnBuffer }

/-- `getTurnFromBuffer()`: the value returned and the knob afterwards. -/
def rotaryKnob.getTurnFromBuffer (k : rotaryKnob) : Int × rotaryKnob :=
  let temp := intMul (if k.turnBuffer > 0 then 1 else -1) (if k.turnBuffer ≠ 0 then 1 else 0)
  if k.bufferTurns then
    (temp, { k with turnBuffer := intSub k.turnBuffer temp })
  else
    (temp, { k with turnBuffer := 0 })

/-- `getClick()`: the value returned and the knob afterwards. -/
def rotaryKnob.getClick (k : rotaryKnob) (digitalRead : Nat → Bool) : Int × rotaryKnob :=
  let temp := digitalRead k.Cpin
  let result := decide (temp.toNat > k.clicked.toNat)
  ((result.toNat : Int), { k with clicked := temp })

def rotaryKnob.getValueInTurnBuffer (k : rotaryKnob) : Int := k.turnBuffer
def rotaryKnob.getKnobState (k : rotaryKnob) : Int := k.state

/-- The levels `digitalRead` reports while the pin numbered `Apin` is at level
`a` and the pin numbered `Bpin` at level `b`; other pins idle high. -/
def pinLevels (Apin Bpin : Nat) (a b : Bool) : Nat → Bool :=
  fun pin => if pin = Apin then a else if pin = Bpin then b else true

/-- Successive `update()` calls, one per reading of the pins: the `state` and
`turnBuffer` left by each call. -/
def rotaryKnob.trace (k : rotaryKnob) : List (Nat → Bool) → Option (List (Nat × Int))
  | [] => some []
  | r :: rest =>
    match k.update r with
    | none => none
    | some k1 =>
      match k1.trace rest with
      | none => none
      | some l => some ((k1.state, k1.turnBuffer) :: l)

/-- Successive `update()` calls: the knob left by the last one. -/
def rotaryKnob.updates (k : rotaryKnob) : List (Nat → Bool) → Option rotaryKnob
  | [] => some k
  | r :: rest =>
    match k.update r with
    | none => none
    | some k1 => k1.updates rest

/-- The pin readings seen by a knob on pins `Apin`, `Bpin` for a list of
samples, each sample given as the level of pin B then the level of pin A. -/
def readingsBA (Apin Bpin : Nat) (samples : List (Bool × Bool)) : List (Nat → Bool) :=
  samples.map fun s => pinLevels Apin Bpin s.2 s.1

/-- Successive `getClick()` calls, one per reading of the pins: the values
returned and the knob left by the last call. -/
def rotaryKnob.clicks (k : rotaryKnob) : List (Nat → Bool) → List Int × rotaryKnob
  | [] => ([], k)
  | r :: rest =>
    ((k.getClick r).1 :: ((k.getClick r).2.clicks rest).1, ((k.getClick r).2.clicks rest).2)

/-- The pin readings seen by a knob on pins `Apin`, `Bpin` for a list of
samples, each sample given as the level of pin A then the level of pin B. -/
def readingsAB (Apin Bpin : Nat) (samples : List (Bool × Bool)) : List (Nat → Bool) :=
  samples.map fun s => pinLevels Apin Bpin s.1 s.2

/-- The table entry `stateTable[state & 0b00111][(b << 1) | a]`, if the row is
inside the table. -/
def tableEntry (state : Nat) (b a : Bool) : Option Nat :=
  match stateTable[state &&& 7]? with
  | none => none
  | some row => row[(b.toNat <<< 1) ||| a.toNat]?

/-- The relabelling of the decoder states that exchanges the two directions:
1 with 4, 2 with 5, 3 with 6, 8 with 16. -/
def mirrorState : Nat → Nat
  | 1 => 4
  | 2 => 5
  | 3 => 6
  | 4 => 1
  | 5 => 2
  | 6 => 3
  | 8 => 16
  | 16 => 8
  | s => s

/-- The state values the documentation of the decoder lists. -/
def knobStates : List Nat := [0, 1, 2, 3, 4, 5, 6, 8, 16]

/-- The pin readings of `n` clockwise clicks in a row, four per click after the
neutral (1,1): samples (pin A, pin B) = (1,0), (0,0), (0,1), (1,1). -/
def clockwiseClicks (Apin Bpin : Nat) : Nat → List (Nat → Bool)
  | 0 => []
  | n + 1 =>
    readingsAB Apin Bpin [(true, false), (false, false), (false, true), (true, true)]
      ++ clockwiseClicks Apin Bpin n

/-- Successive `getTurnFromBuffer()` calls with no `update()` in between: the
values returned and the knob left by the last call. -/
def rotaryKnob.turns (k : rotaryKnob) : Nat → List Int × rotaryKnob
  | 0 => ([], k)
  | m + 1 =>
    (k.getTurnFromBuffer.1 :: (k.getTurnFromBuffer.2.turns m).1,
     (k.getTurnFromBuffer.2.turns m).2)

/-! ## softTimer.h -/

/-- The timer; `startTime` and `delay_uS` are `uint64_t`. -/
structure softTimer where
  startTime : Nat
  delay_uS : Nat
  running : Bool
  finishNow : Bool
deriving DecidableEq

/-- The constructor `softTimer()`. -/
def softTimer.new : softTimer :=
  { startTime := 0, delay_uS := 0, running := false, finishNow := false }

/-- `start(_delay_uS, _defer_uS)` called when the clock reads `now`. -/
def softTimer.start (_t : softTimer) (_delay_uS _defer_uS : Nat) (now : Nat) : softTimer :=
  { startTime := (now + _defer_uS) % U64, delay_uS := _delay_uS, running := true,
    finishNow := false }

def softTimer.stop (t : softTimer) : softTimer :=
  { t with running := false, finishNow := false }

def softTimer.repeat (t : softTimer) : softTimer :=
  { t with startTime := (t.startTime + t.delay_uS) % U64, running := true, finishNow := false }

/-- `restart()`: `start(delay_uS, 0)`. -/
def softTimer.restart (t : softTimer) (now : Nat) : softTimer :=
  t.start t.delay_uS 0 now

def softTimer.finish (t : softTimer) : softTimer :=
  { t with finishNow := true }

/-- `getElapsed()` when the clock reads `now`. -/
def softTimer.getElapsed (t : softTimer) (now : Nat) : Nat :=
  let temp := now
  if temp < t.startTime then 0 else temp - t.startTime

/-- `justFinished()` when the clock reads `now`: the value returned and the
timer afterwards. -/
def softTimer.justFinished (t : softTimer) (now : Nat) : Bool × softTimer :=
  if t.running && (t.finishNow || decide (t.getElapsed now ≥ t.delay_uS)) then
    (true, t.stop)
  else
    (false, t)

def softTimer.isRunning (t : softTimer) : Bool := t.running
def softTimer.getStartTime (t : softTimer) : Nat := t.startTime
def softTimer.getDelay (t : softTimer) : Nat := t.delay_uS

/-- `getRemaining()` when the clock reads `now`. -/
def softTimer.getRemaining (t : softTimer) (now : Nat) : Nat :=
  if t.running then
    let temp := t.getElapsed now
    if t.finishNow || decide (temp ≥ t.delay_uS) then 0 else t.delay_uS - temp
  else
    0

/-- Successive `justFinished()` calls, one per clock reading: the values
returned and the timer left by the last call. -/
def softTimer.polls (t : softTimer) : List Nat → List Bool × softTimer
  | [] => ([], t)
  | now :: rest =>
    ((t.justFinished now).1 :: ((t.justFinished now).2.polls rest).1,
     ((t.justFinished now).2.polls rest).2)

/-- `execWhenFinished(_callback)`. The callback acts on the rest of the program
state `w` and may also reach the timer; `now` is the clock read inside
`justFinished()`, `before` and `after` the clock read around the callback.
Returns the value returned, the timer afterwards and the program state. -/
def softTimer.execWhenFinished {σ : Type} (t : softTimer)
    (_callback : σ × softTimer → σ × softTimer) (w : σ) (now before after : Nat) :
    Nat × softTimer × σ :=
  let temp := 0
  if (t.justFinished now).1 then
    let temp := before
    let r := _callback (w, (t.justFinished now).2)
    let temp := (after + U64 - temp) % U64
    (temp, r.2.repeat, r.1)
  else
    (temp, (t.justFinished now).2, w)

/-- `k` successive `repeat()` calls. -/
def softTimer.repeats (t : softTimer) : Nat → softTimer
  | 0 => t
  | k + 1 => (t.repeats k).repeat

/-- The calls on a timer that do not arm it. -/
inductive timerCall where
  | justFinished (now : Nat)
  | finish
  | stop
deriving DecidableEq

/-- A run of calls that do not arm the timer: the values returned by the
`justFinished()` calls among them, in order, and the timer afterwards. -/
def softTimer.calls (t : softTimer) : List timerCall → List Bool × softTimer
  | [] => ([], t)
  | timerCall.justFinished now :: rest =>
    ((t.justFinished now).1 :: ((t.justFinished now).2.calls rest).1,
     ((t.justFinished now).2.calls rest).2)
  | timerCall.finish :: rest => t.finish.calls rest
  | timerCall.stop :: rest => t.stop.calls rest

/-! ## Properties -/

theorem land3_eq_mod4 (n : Nat) : n &&& 3 = n % 4 := by
  have h : (3 : Nat) = 2 ^ 2 - 1 := by norm_num
  rw [h, Nat.and_pow_two_sub_one_eq_mod]

theorem shl1_add_eq_lor (s : Nat) (b : Bool) :
    (s <<< 1) + b.toNat = (s <<< 1) ||| b.toNat := by
  have hb : b.toNat < 2 ^ 1 := by cases b <;> simp
  have h := Nat.mul_add_lt_is_or hb s
  simpa [Nat.shiftLeft_eq, Nat.mul_comm] using h

theorem interp_btnState (s : Nat) (b : Bool) :
    (((s <<< 1) + b.toNat) &&& 3) % 256 = (2 * s + b.toNat) % 4 := by
  rw [land3_eq_mod4, Nat.shiftLeft_eq, pow_one, Nat.mul_comm s 2]
  omega

/-- C1: for each of the four button states (indeed for any stored value) and
each sample, `interpBtnPress` produces `((old << 1) | sample) & 0b11`, the `+`
of the code agreeing with `|`, and the result is one of the four states. -/
theorem interpBtnPress_shift_mask (b : buttonDef) (isPress : Bool) :
    (b.interpBtnPress isPress).btnState = ((b.btnState <<< 1) ||| isPress.toNat) &&& 3
    ∧ (b.interpBtnPress isPress).btnState ∈
        [BTN_STATE_OFF, BTN_STATE_NEWPRESS, BTN_STATE_RELEASED, BTN_STATE_HELD] := by
  have h1 : (b.interpBtnPress isPress).btnState = (2 * b.btnState + isPress.toNat) % 4 :=
    interp_btnState b.btnState isPress
  refine ⟨?_, ?_⟩
  · rw [← shl1_add_eq_lor, land3_eq_mod4, h1, Nat.shiftLeft_eq, pow_one, Nat.mul_comm]
  · rw [h1]
    have h2 : (2 * b.btnState + isPress.toNat) % 4 < 4 := Nat.mod_lt _ (by norm_num)
    simp only [BTN_STATE_OFF, BTN_STATE_NEWPRESS, BTN_STATE_RELEASED, BTN_STATE_HELD,
      List.mem_cons, List.mem_nil_iff, or_false]
    omega

/-- C2: after two consecutive polls with samples `a` then `c` the state is
`2*a + c` whatever it was before, and the samples 1,1,0,0 fed from Idle give
JustPressed, Held, JustReleased, Idle. -/
theorem interpBtnPress_last_two_samples (b : buttonDef) (a c : Bool) :
    ((b.interpBtnPress a).interpBtnPress c).btnState = 2 * a.toNat + c.toNat
    ∧ buttonDef.pollStates { btnState := BTN_STATE_OFF } [true, true, false, false]
        = [BTN_STATE_NEWPRESS, BTN_STATE_HELD, BTN_STATE_RELEASED, BTN_STATE_OFF] := by
  refine ⟨?_, by decide⟩
  have h1 : (b.interpBtnPress a).btnState = (2 * b.btnState + a.toNat) % 4 :=
    interp_btnState b.btnState a
  have h2 : ((b.interpBtnPress a).interpBtnPress c).btnState
      = (2 * (b.interpBtnPress a).btnState + c.toNat) % 4 :=
    interp_btnState (b.interpBtnPress a).btnState c
  rw [h2, h1]
  cases a <;> cases c <;> simp <;> omega

theorem neg_lt_tmod_of_pos (a : Int) {b : Int} (H : 0 < b) : -b < Int.tmod a b := by
  rcases Int.lt_or_le a 0 with ha | ha
  · have h1 : Int.tmod (-a) b < b := Int.tmod_lt_of_pos _ H
    have h2 : Int.tmod (-a) b = -Int.tmod a b := by
      rw [Int.tmod_def, Int.tmod_def, Int.neg_tdiv]
      ring
    omega
  · have := Int.tmod_nonneg b ha
    omega

theorem wrap32_of_isInt32 {x : Int} (h : isInt32 x) : wrap32 x = x := by
  unfold isInt32 at h
  unfold wrap32
  omega

/-- The value `positiveMod` computes for a modulus that cannot overflow. -/
theorem positiveMod_small (n d : Int) (hd : 0 < d) (hs : d ≤ 1073741824) :
    ∃ r, positiveMod n d = some r ∧ 0 ≤ r ∧ r < d := by
  have hne : d ≠ 0 := by omega
  have hlo := neg_lt_tmod_of_pos n hd
  have hhi := Int.tmod_lt_of_pos n hd
  have hw : wrap32 (Int.tmod n d + d) = Int.tmod n d + d :=
    wrap32_of_isInt32 ⟨by omega, by omega⟩
  refine ⟨Int.tmod (Int.tmod n d + d) d, ?_, ?_, ?_⟩
  · have hm1 : d ≠ -1 := by omega
    simp [positiveMod, intMod, intAdd, hne, hm1, hw]
  · exact Int.tmod_nonneg d (by omega)
  · exact Int.tmod_lt_of_pos _ hd

/-- C3, as the code has it: for every `n` and every `d` with `0 < d ≤ 2^30`,
`positiveMod n d` returns a value in `[0, d)`, negative `n` included, and
`positiveMod (-1) 12 = 11`. -/
theorem positiveMod_range (n d : Int) (hd : 0 < d) (hs : d ≤ 1073741824) :
    (∃ r, positiveMod n d = some r ∧ 0 ≤ r ∧ r < d) ∧ positiveMod (-1) 12 = some 11 :=
  ⟨positiveMod_small n d hd hs, by decide⟩

/-- C3 witness: a negative `n` with the 53-step modulus. -/
theorem positiveMod_range_witness :
    (0 : Int) < 53 ∧ (53 : Int) ≤ 1073741824 ∧
    ((∃ r, positiveMod (-40) 53 = some r ∧ 0 ≤ r ∧ r < 53)
      ∧ positiveMod (-1) 12 = some 11) :=
  ⟨by decide, by decide, positiveMod_range (-40) 53 (by decide) (by decide)⟩

/-- C3 does not hold for every positive `d`: with `d = 2^31 - 1` and
`n = 2^31 - 2` the sum `(n % d) + d` leaves the `int` range and the result is
negative. -/
theorem positiveMod_large_modulus :
    (0 : Int) < 2147483647 ∧ isInt32 2147483646 ∧ isInt32 2147483647 ∧
    positiveMod 2147483646 2147483647 = some (-3) ∧
    ¬ (∃ r, positiveMod 2147483646 2147483647 = some r ∧ 0 ≤ r ∧ r < 2147483647) := by
  refine ⟨by decide, by decide, by decide, by decide, ?_⟩
  rintro ⟨r, h, h0, _⟩
  have h3 : positiveMod 2147483646 2147483647 = some (-3) := by decide
  rw [h3] at h
  injection h with h
  omega

theorem tuningOptions_cycleLength_checked :
    ∀ i, i < 13 →
      (tuningOptions[i]?.map fun t => decide (0 < t.cycleLength ∧ t.cycleLength ≤ 72))
        = some true := by
  decide

theorem tuning_of_catalog_index (p : presetDef) (h0 : 0 ≤ p.tuningIndex)
    (h1 : p.tuningIndex < TUNINGCOUNT) :
    ∃ t, p.tuning = some t ∧ 0 < t.cycleLength ∧ t.cycleLength ≤ 72 := by
  have hlt : p.tuningIndex.toNat < 13 := by
    simp only [TUNINGCOUNT] at h1
    omega
  have hc := tuningOptions_cycleLength_checked p.tuningIndex.toNat hlt
  cases ht : tuningOptions[p.tuningIndex.toNat]? with
  | none => simp [ht] at hc
  | some t =>
    refine ⟨t, by simp [presetDef.tuning, h0, ht], ?_⟩
    simpa [ht] using hc

theorem wrap32_add_wrap32 (a b : Int) : wrap32 (wrap32 a + b) = wrap32 (a + b) := by
  unfold wrap32
  omega

/-- C5, as the code has it: changing only `transpose` leaves `keyDegree(s)`
unchanged for every `s`; and whenever the exact sums `s + spanCtoA + transpose`
before and after the change both fit in an `int`, `pitchRelToA4(s)` is that sum
and so changes by exactly the change in `transpose`. -/
theorem transpose_changes_pitch_only (p : presetDef) (newTranspose : Int) :
    (∀ s, presetDef.keyDegree { p with transpose := newTranspose } s = p.keyDegree s)
    ∧ ∀ s t, p.tuning = some t →
        isInt32 (s + t.spanCtoA + p.transpose) →
        isInt32 (s + t.spanCtoA + newTranspose) →
        p.pitchRelToA4 s = some (s + t.spanCtoA + p.transpose)
        ∧ presetDef.pitchRelToA4 { p with transpose := newTranspose } s
            = some (s + t.spanCtoA + p.transpose + (newTranspose - p.transpose)) := by
  refine ⟨fun s => rfl, ?_⟩
  intro s t ht hold hnew
  have ht2 : presetDef.tuning { p with transpose := newTranspose } = some t := ht
  refine ⟨?_, ?_⟩
  · simp only [presetDef.pitchRelToA4, ht, intAdd, wrap32_add_wrap32]
    rw [wrap32_of_isInt32 hold]
  · simp only [presetDef.pitchRelToA4, ht2, intAdd, wrap32_add_wrap32]
    rw [wrap32_of_isInt32 hnew]
    congr 1
    ring

/-- C5 witness: 12-EDO, transpose moved from 0 to 12, the key 3 steps above C. -/
theorem transpose_changes_pitch_only_witness :
    presetDef.tuning ⟨"w", 0, 0, 0, 0, 0⟩ = tuningOptions[0]? ∧
    isInt32 (3 + (-9) + 0) ∧ isInt32 (3 + (-9) + 12) ∧
    presetDef.pitchRelToA4 ⟨"w", 0, 0, 0, 0, 0⟩ 3 = some (-6) ∧
    presetDef.pitchRelToA4 ⟨"w", 0, 0, 0, 0, 12⟩ 3 = some (-6 + (12 - 0)) ∧
    presetDef.keyDegree ⟨"w", 0, 0, 0, 0, 12⟩ 3 = presetDef.keyDegree ⟨"w", 0, 0, 0, 0, 0⟩ 3 :=
  have h := transpose_changes_pitch_only ⟨"w", 0, 0, 0, 0, 0⟩ 12
  have h2 := h.2 3 (tuningDef.mk "12 EDO" 12 _) rfl (by decide) (by decide)
  ⟨rfl, by decide, by decide, h2.1, h2.2, h.1 3⟩

/-- C5 does not hold for every transpose: in Carlos Alpha (`spanCtoA = 0`) the
key one step above C has pitch 1 at transpose 0, and at transpose `2^31 - 1` the
sum leaves the `int` range, so the pitch does not move by `2^31 - 1`. -/
theorem transpose_pitch_overflow :
    isInt32 2147483647 ∧
    presetDef.pitchRelToA4 ⟨"c", 10, 0, 0, 0, 0⟩ 1 = some 1 ∧
    presetDef.pitchRelToA4 ⟨"c", 10, 0, 0, 0, 2147483647⟩ 1 = some (-2147483648) ∧
    presetDef.pitchRelToA4 ⟨"c", 10, 0, 0, 0, 2147483647⟩ 1 ≠ some (1 + (2147483647 - 0)) := by
  decide

/-- C6 evaluated on the catalog: of the 87 scales other than the "None"
sentinel, exactly two break the invariant. Entry 60 ("7-limit chromatic",
41-EDO) has gaps summing to 40, not 41; entry 81 ("Marvolo", 72-EDO) has gaps
summing to 67, not 72. Every other scale names a catalog tuning and its gaps sum
to that tuning's cycle length. -/
theorem scaleOptions_gap_sums :
    scaleCount = 88
    ∧ (List.range scaleCount).filter (fun i =>
        match scaleOptions[i]? with
        | some s => s.tuning != ALL_TUNINGS && !s.fillsCycle
        | none => false) = [60, 81]
    ∧ (scaleOptions[60]?.map fun s => (s.name, s.tuning, s.pattern.sum))
        = some ("7-limit chromatic", TUNING_41EDO, 40)
    ∧ (tuningOptions[TUNING_41EDO]?.map fun t => t.cycleLength) = some 41
    ∧ (scaleOptions[81]?.map fun s => (s.name, s.tuning, s.pattern.sum))
        = some ("Marvolo", TUNING_72EDO, 67)
    ∧ (tuningOptions[TUNING_72EDO]?.map fun t => t.cycleLength) = some 72 := by
  decide

/-- C7: with membership as the spec words it, the catalog's 12-EDO Major scale
(gaps 2,2,1,2,2,2,1) contains, among the degrees 0..11, exactly 0,2,4,5,7,9,11,
and none of 1,3,6,8,10. -/
theorem major_scale_degrees :
    (scaleOptions[1]?.map fun s => (s.name, s.tuning, s.pattern))
        = some ("Major", TUNING_12EDO, [2, 2, 1, 2, 2, 2, 1])
    ∧ (scaleOptions[1]?.map fun s => (List.range 12).filter s.inScale)
        = some [0, 2, 4, 5, 7, 9, 11]
    ∧ (scaleOptions[1]?.map fun s => [1, 3, 6, 8, 10].map s.inScale)
        = some [false, false, false, false, false] := by
  decide

theorem list_of_length_five {α : Type} :
    ∀ l : List α, l.length = 5 → ∃ a b c d e, l = [a, b, c, d, e]
  | [a, b, c, d, e], _ => ⟨a, b, c, d, e, rfl⟩
  | [], h | [_], h | [_, _], h | [_, _, _], h | [_, _, _, _], h
  | _ :: _ :: _ :: _ :: _ :: _ :: _, h => by simp at h

/-- One `update()` call spelled out: the table entry selected by the stored
state and the two pin levels becomes the new state, and its bits 3 and 4 move
the turn buffer. -/
theorem update_table_entry (k : rotaryKnob) (r : Nat → Bool) (s st : Nat) (tb tb1 : Int)
    (b a : Bool) (hs : k.state = s) (htb : k.turnBuffer = tb)
    (hB : r k.Bpin = b) (hA : r k.Apin = a)
    (hst : (match stateTable[s &&& 7]? with
      | none => none
      | some row => row[(b.toNat <<< 1) ||| a.toNat]?) = some st)
    (htb1 : intSub (intAdd tb (((st &&& 8) >>> 3 : Nat) : Int))
      (((st &&& 16) >>> 4 : Nat) : Int) = tb1) :
    k.update r = some { k with state := st, turnBuffer := tb1 } := by
  subst hs htb hB hA htb1
  unfold rotaryKnob.update
  cases hrow : stateTable[k.state &&& 7]? with
  | none => simp [hrow] at hst
  | some row =>
    simp only [hrow] at hst
    simp only [hrow, hst]

/-- C8, as the code has it: from the neutral state with an empty turn buffer,
the samples 11,01,00,10,11, each written as pin B then pin A, take `update()`
through the clockwise states 4, 5, 6 to the completed-turn state 16 and leave
the accumulator at -1; the reverse sequence 11,10,00,01,11 goes through the
counter-clockwise states 1, 2, 3 to state 8 and leaves it at +1. -/
theorem update_samples_B_then_A (k : rotaryKnob) (rs : List (Nat → Bool))
    (hs : k.state = 0) (hb : k.turnBuffer = 0) :
    (rs.map (fun r => (r k.Bpin, r k.Apin))
        = [(true, true), (false, true), (false, false), (true, false), (true, true)] →
      k.trace rs = some [(0, 0), (4, 0), (5, 0), (6, 0), (16, -1)]
      ∧ (k.updates rs).map (fun k1 => k1.turnBuffer) = some (-1))
    ∧ (rs.map (fun r => (r k.Bpin, r k.Apin))
        = [(true, true), (true, false), (false, false), (false, true), (true, true)] →
      k.trace rs = some [(0, 0), (1, 0), (2, 0), (3, 0), (8, 1)]
      ∧ (k.updates rs).map (fun k1 => k1.turnBuffer) = some 1) := by
  constructor
  · intro h
    obtain ⟨r1, r2, r3, r4, r5, rfl⟩ := list_of_length_five rs (by
      have := congrArg List.length h
      simpa using this)
    simp only [List.map, List.cons.injEq, Prod.mk.injEq, and_true] at h
    obtain ⟨⟨b1, a1⟩, ⟨b2, a2⟩, ⟨b3, a3⟩, ⟨b4, a4⟩, b5, a5⟩ := h
    have e1 := update_table_entry k r1 0 0 0 0 true true hs hb b1 a1 (by decide) (by decide)
    have e2 := update_table_entry { k with state := 0, turnBuffer := 0 } r2 0 4 0 0
      false true rfl rfl b2 a2 (by decide) (by decide)
    have e3 := update_table_entry { k with state := 4, turnBuffer := 0 } r3 4 5 0 0
      false false rfl rfl b3 a3 (by decide) (by decide)
    have e4 := update_table_entry { k with state := 5, turnBuffer := 0 } r4 5 6 0 0
      true false rfl rfl b4 a4 (by decide) (by decide)
    have e5 := update_table_entry { k with state := 6, turnBuffer := 0 } r5 6 16 0 (-1)
      true true rfl rfl b5 a5 (by decide) (by decide)
    simp only [rotaryKnob.trace, rotaryKnob.updates, e1, e2, e3, e4, e5, Option.map_some',
      and_self]
  · intro h
    obtain ⟨r1, r2, r3, r4, r5, rfl⟩ := list_of_length_five rs (by
      have := congrArg List.length h
      simpa using this)
    simp only [List.map, List.cons.injEq, Prod.mk.injEq, and_true] at h
    obtain ⟨⟨b1, a1⟩, ⟨b2, a2⟩, ⟨b3, a3⟩, ⟨b4, a4⟩, b5, a5⟩ := h
    have e1 := update_table_entry k r1 0 0 0 0 true true hs hb b1 a1 (by decide) (by decide)
    have e2 := update_table_entry { k with state := 0, turnBuffer := 0 } r2 0 1 0 0
      true false rfl rfl b2 a2 (by decide) (by decide)
    have e3 := update_table_entry { k with state := 1, turnBuffer := 0 } r3 1 2 0 0
      false false rfl rfl b3 a3 (by decide) (by decide)
    have e4 := update_table_entry { k with state := 2, turnBuffer := 0 } r4 2 3 0 0
      false true rfl rfl b4 a4 (by decide) (by decide)
    have e5 := update_table_entry { k with state := 3, turnBuffer := 0 } r5 3 8 0 1
      true true rfl rfl b5 a5 (by decide) (by decide)
    simp only [rotaryKnob.trace, rotaryKnob.updates, e1, e2, e3, e4, e5, Option.map_some',
      and_self]

/-- C8 witness: a knob on pins A = 0, B = 1, fresh from its constructor. -/
theorem update_samples_B_then_A_witness :
    (rotaryKnob.new 0 1 2 true).state = 0 ∧ (rotaryKnob.new 0 1 2 true).turnBuffer = 0
    ∧ (rotaryKnob.new 0 1 2 true).trace (readingsBA 0 1
          [(true, true), (false, true), (false, false), (true, false), (true, true)])
        = some [(0, 0), (4, 0), (5, 0), (6, 0), (16, -1)]
    ∧ (rotaryKnob.new 0 1 2 true).trace (readingsBA 0 1
          [(true, true), (true, false), (false, false), (false, true), (true, true)])
        = some [(0, 0), (1, 0), (2, 0), (3, 0), (8, 1)] :=
  ⟨rfl, rfl,
    ((update_samples_B_then_A (rotaryKnob.new 0 1 2 true) (readingsBA 0 1
      [(true, true), (false, true), (false, false), (true, false), (true, true)])
      rfl rfl).1 (by decide)).1,
    ((update_samples_B_then_A (rotaryKnob.new 0 1 2 true) (readingsBA 0 1
      [(true, true), (true, false), (false, false), (false, true), (true, true)])
      rfl rfl).2 (by decide)).1⟩

/-- C8 does not hold as worded: on a fresh knob the samples 11,01,00,10,11 read
as (B, A) leave the accumulator at -1, not +1, and the reverse sequence leaves
it at +1, not -1. -/
theorem update_samples_B_then_A_sign :
    ((rotaryKnob.new 0 1 2 true).updates (readingsBA 0 1
        [(true, true), (false, true), (false, false), (true, false), (true, true)])).map
        (fun k => k.turnBuffer) = some (-1)
    ∧ ((rotaryKnob.new 0 1 2 true).updates (readingsBA 0 1
        [(true, true), (false, true), (false, false), (true, false), (true, true)])).map
        (fun k => k.turnBuffer) ≠ some 1
    ∧ ((rotaryKnob.new 0 1 2 true).updates (readingsBA 0 1
        [(true, true), (true, false), (false, false), (false, true), (true, true)])).map
        (fun k => k.turnBuffer) = some 1
    ∧ ((rotaryKnob.new 0 1 2 true).updates (readingsBA 0 1
        [(true, true), (true, false), (false, false), (false, true), (true, true)])).map
        (fun k => k.turnBuffer) ≠ some (-1) := by
  decide

/-- C9: for every `int` accumulator value `n`, `getTurnFromBuffer` returns the
sign of `n`; in buffered mode it leaves the accumulator at `n` minus the
returned value, one unit closer to zero; in immediate mode it leaves it at 0. -/
theorem getTurnFromBuffer_sign (k : rotaryKnob) (h : isInt32 k.turnBuffer) :
    k.getTurnFromBuffer.1 = Int.sign k.turnBuffer
    ∧ (k.bufferTurns = true →
        k.getTurnFromBuffer.2
          = { k with turnBuffer := k.turnBuffer - k.getTurnFromBuffer.1 })
    ∧ (k.bufferTurns = false → k.getTurnFromBuffer.2 = { k with turnBuffer := 0 })
    ∧ (k.turnBuffer - Int.sign k.turnBuffer).natAbs = k.turnBuffer.natAbs - 1 := by
  unfold isInt32 at h
  have hsign : intMul (if k.turnBuffer > 0 then 1 else -1) (if k.turnBuffer ≠ 0 then 1 else 0)
      = Int.sign k.turnBuffer := by
    rcases lt_trichotomy k.turnBuffer 0 with hn | hn | hn
    · rw [Int.sign_eq_neg_one_of_neg hn, if_neg (by omega), if_pos (by omega)]
      decide
    · rw [hn]
      decide
    · rw [Int.sign_eq_one_of_pos hn, if_pos hn, if_pos (by omega)]
      decide
  have hstep : intSub k.turnBuffer (Int.sign k.turnBuffer)
      = k.turnBuffer - Int.sign k.turnBuffer := by
    unfold intSub
    apply wrap32_of_isInt32
    unfold isInt32
    rcases lt_trichotomy k.turnBuffer 0 with hn | hn | hn
    · rw [Int.sign_eq_neg_one_of_neg hn]
      omega
    · rw [hn]
      decide
    · rw [Int.sign_eq_one_of_pos hn]
      omega
  have habs : (k.turnBuffer - Int.sign k.turnBuffer).natAbs = k.turnBuffer.natAbs - 1 := by
    rcases lt_trichotomy k.turnBuffer 0 with hn | hn | hn
    · rw [Int.sign_eq_neg_one_of_neg hn]
      omega
    · rw [hn]
      decide
    · rw [Int.sign_eq_one_of_pos hn]
      omega
  refine ⟨?_, ?_, ?_, habs⟩
  · cases hbt : k.bufferTurns
    · simp only [rotaryKnob.getTurnFromBuffer, hbt, Bool.false_eq_true, if_false]
      exact hsign
    · simp only [rotaryKnob.getTurnFromBuffer, hbt, if_true]
      exact hsign
  · intro hbuf
    simp only [rotaryKnob.getTurnFromBuffer, hbuf, if_true, hsign, hstep]
  · intro hbuf
    simp only [rotaryKnob.getTurnFromBuffer, hbuf, Bool.false_eq_true, if_false]

/-- C9 witness: three turns buffered, buffered mode. -/
theorem getTurnFromBuffer_sign_witness :
    isInt32 3 ∧
    (rotaryKnob.getTurnFromBuffer ⟨3, 0, 1, 2, 0, true, true⟩).1 = Int.sign 3
    ∧ (rotaryKnob.getTurnFromBuffer ⟨3, 0, 1, 2, 0, true, true⟩).2
        = ⟨3 - (rotaryKnob.getTurnFromBuffer ⟨3, 0, 1, 2, 0, true, true⟩).1,
            0, 1, 2, 0, true, true⟩ :=
  have h := getTurnFromBuffer_sign ⟨3, 0, 1, 2, 0, true, true⟩ (by decide)
  ⟨by decide, h.1, h.2.1 rfl⟩

theorem justFinished_before_deadline (t : softTimer) (now : Nat)
    (hf : t.finishNow = false) (hd : 0 < t.delay_uS)
    (hnow : now < t.startTime + t.delay_uS) : t.justFinished now = (false, t) := by
  have he : ¬ (t.getElapsed now ≥ t.delay_uS) := by
    simp only [softTimer.getElapsed]
    split <;> omega
  simp [softTimer.justFinished, hf, he]

theorem justFinished_at_deadline (t : softTimer) (now : Nat)
    (hr : t.running = true) (hnow : t.startTime + t.delay_uS ≤ now) :
    t.justFinished now = (true, t.stop) := by
  have he : t.getElapsed now ≥ t.delay_uS := by
    simp only [softTimer.getElapsed]
    split <;> omega
  simp [softTimer.justFinished, hr, he]

theorem justFinished_stopped (t : softTimer) (now : Nat) (hr : t.running = false) :
    t.justFinished now = (false, t) := by
  simp [softTimer.justFinished, hr]

theorem polls_before_deadline (t : softTimer) (hf : t.finishNow = false)
    (hd : 0 < t.delay_uS) :
    ∀ early : List Nat, (∀ x ∈ early, x < t.startTime + t.delay_uS) →
      t.polls early = (List.replicate early.length false, t)
  | [], _ => rfl
  | x :: rest, h => by
    have h1 := justFinished_before_deadline t x hf hd (h x (List.mem_cons_self x rest))
    have h2 := polls_before_deadline t hf hd rest
      (fun y hy => h y (List.mem_cons_of_mem x hy))
    simp only [softTimer.polls, h1, h2, List.length_cons, List.replicate_succ]

theorem polls_append (t : softTimer) (l2 : List Nat) :
    ∀ l1 : List Nat, t.polls (l1 ++ l2)
      = ((t.polls l1).1 ++ ((t.polls l1).2.polls l2).1, ((t.polls l1).2.polls l2).2) := by
  intro l1
  induction l1 generalizing t with
  | nil => rfl
  | cons x rest ih =>
    show softTimer.polls t (x :: (rest ++ l2)) = _
    simp only [softTimer.polls, ih, List.cons_append]

/-- C10: a timer armed by `start(d, 0)` at clock `t0`, `d > 0`. Every
`justFinished()` at a clock before `t0 + d` returns false and leaves the timer
as armed, still running; the first call at a clock `late ≥ t0 + d` returns
true; a further call right after it (at whatever clock) returns false. -/
theorem justFinished_after_start (t : softTimer) (d t0 : Nat) (early : List Nat)
    (late after : Nat) (ht0 : t0 < U64) (hd : 0 < d)
    (hearly : ∀ x ∈ early, x < t0 + d) (hlate : t0 + d ≤ late) :
    (t.start d 0 t0).polls early = (List.replicate early.length false, t.start d 0 t0)
    ∧ (t.start d 0 t0).running = true
    ∧ (t.start d 0 t0).polls (early ++ [late, after])
        = (List.replicate early.length false ++ [true, false], (t.start d 0 t0).stop) := by
  have hst : (t.start d 0 t0).startTime = t0 := by
    simp only [softTimer.start, Nat.add_zero]
    exact Nat.mod_eq_of_lt ht0
  have hdl : (t.start d 0 t0).delay_uS = d := rfl
  have hp := polls_before_deadline (t.start d 0 t0) rfl (by rw [hdl]; exact hd) early
    (by rw [hst, hdl]; exact hearly)
  have h1 := justFinished_at_deadline (t.start d 0 t0) late rfl (by rw [hst, hdl]; exact hlate)
  have h2 := justFinished_stopped (t.start d 0 t0).stop after rfl
  refine ⟨hp, rfl, ?_⟩
  rw [polls_append, hp]
  simp only [softTimer.polls, h1, h2]

/-- C10 witness: `start(1000, 0)` at clock 5000, polled at 5000, 5500 and 5999,
then twice at 6000. -/
theorem justFinished_after_start_witness :
    5000 < U64 ∧ 0 < 1000 ∧ (∀ x ∈ [5000, 5500, 5999], x < 5000 + 1000) ∧ 5000 + 1000 ≤ 6000
    ∧ (softTimer.new.start 1000 0 5000).polls [5000, 5500, 5999]
        = ([false, false, false], softTimer.new.start 1000 0 5000)
    ∧ (softTimer.new.start 1000 0 5000).polls ([5000, 5500, 5999] ++ [6000, 6000])
        = ([false, false, false] ++ [true, false], (softTimer.new.start 1000 0 5000).stop) :=
  have h := justFinished_after_start softTimer.new 1000 5000 [5000, 5500, 5999] 6000 6000
    (by decide) (by decide) (by decide) (by decide)
  ⟨by decide, by decide, by decide, by decide, h.1, h.2.2⟩

theorem justFinished_true_stops (t : softTimer) (now : Nat)
    (h : (t.justFinished now).1 = true) : (t.justFinished now).2 = t.stop := by
  unfold softTimer.justFinished at h ⊢
  split
  · rfl
  · rename_i hc
    simp [hc] at h

theorem justFinished_keeps_stopped (t : softTimer) (now : Nat) (hr : t.running = false) :
    (t.justFinished now).2.running = false := by
  rw [justFinished_stopped t now hr]
  exact hr

theorem calls_stopped (cs : List timerCall) :
    ∀ t : softTimer, t.running = false →
      (∀ b ∈ (t.calls cs).1, b = false) ∧ (t.calls cs).2.running = false := by
  induction cs with
  | nil =>
    intro t hr
    exact ⟨fun b hb => by simp [softTimer.calls] at hb, hr⟩
  | cons c rest ih =>
    intro t hr
    cases c with
    | justFinished now =>
      have h1 := justFinished_stopped t now hr
      have h2 := ih t hr
      simp only [softTimer.calls, h1, List.mem_cons]
      refine ⟨?_, h2.2⟩
      intro b hb
      rcases hb with hb | hb
      · exact hb
      · exact h2.1 b hb
    | finish => exact ih t.finish hr
    | stop => exact ih t.stop rfl

theorem calls_true_at_most_once (cs : List timerCall) :
    ∀ t : softTimer, (t.calls cs).1.count true ≤ 1 := by
  induction cs with
  | nil =>
    intro t
    simp [softTimer.calls]
  | cons c rest ih =>
    intro t
    cases c with
    | justFinished now =>
      cases hres : (t.justFinished now).1 with
      | false =>
        have h2 := ih (t.justFinished now).2
        simp only [softTimer.calls, hres]
        rw [List.count_cons_of_ne (by decide)]
        exact h2
      | true =>
        have hstop := justFinished_true_stops t now hres
        have h2 := (calls_stopped rest t.stop rfl).1
        have h3 : (t.stop.calls rest).1.count true = 0 := by
          rw [List.count_eq_zero]
          intro hmem
          have := h2 true hmem
          exact absurd this (by decide)
        simp only [softTimer.calls, hres, hstop, List.count_cons_self, h3]
        exact Nat.le_refl 1
    | finish => exact ih t.finish
    | stop => exact ih t.stop

/-- C11: `justFinished()` is one-shot. When it returns true it leaves the timer
stopped (`running = false`, `finishNow = false`); from then on, through any run
of `justFinished()`, `finish()` and `stop()` calls at any clock values, every
`justFinished()` returns false and the timer stays stopped; and in any run of
such calls on any timer, `justFinished()` returns true at most once. -/
theorem justFinished_one_shot (t : softTimer) (now : Nat) (cs : List timerCall)
    (h : (t.justFinished now).1 = true) :
    (t.justFinished now).2.running = false
    ∧ (t.justFinished now).2.finishNow = false
    ∧ (∀ b ∈ ((t.justFinished now).2.calls cs).1, b = false)
    ∧ ((t.justFinished now).2.calls cs).2.running = false
    ∧ ∀ (u : softTimer) (ds : List timerCall), (u.calls ds).1.count true ≤ 1 := by
  have hstop := justFinished_true_stops t now h
  have hc := calls_stopped cs t.stop rfl
  rw [hstop]
  exact ⟨rfl, rfl, hc.1, hc.2, fun u ds => calls_true_at_most_once ds u⟩

/-- C11 witness: `start(1000, 0)` at clock 5000 finishes at clock 6000; then
`finish()`, a poll at 7000, `stop()` and a poll at 1000000. -/
theorem justFinished_one_shot_witness :
    ((softTimer.new.start 1000 0 5000).justFinished 6000).1 = true
    ∧ ((softTimer.new.start 1000 0 5000).justFinished 6000).2.running = false
    ∧ ((softTimer.new.start 1000 0 5000).justFinished 6000).2.finishNow = false
    ∧ (((softTimer.new.start 1000 0 5000).justFinished 6000).2.calls
        [timerCall.finish, timerCall.justFinished 7000, timerCall.stop,
          timerCall.justFinished 1000000]).1 = [false, false] :=
  have h := justFinished_one_shot (softTimer.new.start 1000 0 5000) 6000
    [timerCall.finish, timerCall.justFinished 7000, timerCall.stop,
      timerCall.justFinished 1000000] (by decide)
  ⟨by decide, h.1, h.2.1, by decide⟩

theorem repeats_after_start (t : softTimer) (d f t0 : Nat) :
    ∀ k, ((t.start d f t0).repeats k).startTime = (t0 + f + k * d) % U64
      ∧ ((t.start d f t0).repeats k).delay_uS = d
      ∧ ((t.start d f t0).repeats k).running = true
      ∧ ((t.start d f t0).repeats k).finishNow = false
  | 0 => by simp [softTimer.repeats, softTimer.start]
  | k + 1 => by
    obtain ⟨h1, h2, _, _⟩ := repeats_after_start t d f t0 k
    refine ⟨?_, h2, rfl, rfl⟩
    show ((((t.start d f t0).repeats k).startTime
      + ((t.start d f t0).repeats k).delay_uS) % U64) = _
    rw [h1, h2, Nat.succ_mul]
    generalize k * d = m
    unfold U64
    omega

/-- C12, as the code has it: `repeat()` reads no clock; it sets `startTime` to
the old `startTime + delay` reduced modulo `2^64`, keeps `delay`, sets `running`
and clears `finishNow`. After `start(d, f)` at clock `t0` and `k` calls of
`repeat()`, `startTime = (t0 + f + k*d) mod 2^64`, which is `t0 + f + k*d`
whenever that sum is below `2^64`. -/
theorem repeat_from_previous_deadline (t : softTimer) (d f t0 k : Nat) :
    t.repeat = { startTime := (t.startTime + t.delay_uS) % U64, delay_uS := t.delay_uS,
                 running := true, finishNow := false }
    ∧ ((t.start d f t0).repeats k).startTime = (t0 + f + k * d) % U64
    ∧ ((t.start d f t0).repeats k).delay_uS = d
    ∧ ((t.start d f t0).repeats k).running = true
    ∧ ((t.start d f t0).repeats k).finishNow = false
    ∧ (t0 + f + k * d < U64 → ((t.start d f t0).repeats k).startTime = t0 + f + k * d) := by
  obtain ⟨h1, h2, h3, h4⟩ := repeats_after_start t d f t0 k
  refine ⟨rfl, h1, h2, h3, h4, ?_⟩
  intro hlt
  rw [h1]
  exact Nat.mod_eq_of_lt hlt

/-- C12 witness: `start(1000, 250)` at clock 5000, then three `repeat()`s. -/
theorem repeat_from_previous_deadline_witness :
    5000 + 250 + 3 * 1000 < U64
    ∧ ((softTimer.new.start 1000 250 5000).repeats 3).startTime = 5000 + 250 + 3 * 1000
    ∧ ((softTimer.new.start 1000 250 5000).repeats 3).delay_uS = 1000 :=
  have h := repeat_from_previous_deadline softTimer.new 1000 250 5000 3
  ⟨by decide, h.2.2.2.2.2 (by decide), h.2.2.1⟩

/-- C12 does not hold for every delay: after `start(2^64 - 1, 0)` at clock 1000
one `repeat()` leaves `startTime = 999`, not `1000 + (2^64 - 1)`. -/
theorem repeat_wraps_startTime :
    1000 < U64 ∧ 18446744073709551615 < U64
    ∧ ((softTimer.new.start 18446744073709551615 0 1000).repeats 1).startTime = 999
    ∧ ((softTimer.new.start 18446744073709551615 0 1000).repeats 1).startTime
        ≠ 1000 + 0 + 1 * 18446744073709551615
    ∧ (softTimer.new.start 18446744073709551615 0 1000).repeat.startTime
        ≠ (softTimer.new.start 18446744073709551615 0 1000).startTime
          + (softTimer.new.start 18446744073709551615 0 1000).delay_uS := by
  decide

theorem justFinished_false_unchanged (t : softTimer) (now : Nat)
    (h : (t.justFinished now).1 = false) : (t.justFinished now).2 = t := by
  unfold softTimer.justFinished at h ⊢
  split
  · rename_i hc
    simp [hc] at h
  · rfl

/-- C13, as the code has it, for a callback that leaves the timer alone and a
clock that does not run backwards over the callback. If `justFinished()` returns
false, the callback is not run, 0 is returned and the timer is unchanged. If it
returns true, the callback is run once, the value returned is the clock after
it minus the clock before it, and the timer is left running with
`startTime = (old startTime + delay) mod 2^64`, the same delay and `finishNow`
cleared. -/
theorem execWhenFinished_reschedules {σ : Type} (t : softTimer)
    (cb : σ × softTimer → σ × softTimer) (w : σ) (now before after : Nat)
    (hcb : ∀ x u, (cb (x, u)).2 = u) (hmono : before ≤ after) (hafter : after < U64) :
    ((t.justFinished now).1 = false →
      t.execWhenFinished cb w now before after = (0, t, w))
    ∧ ((t.justFinished now).1 = true →
      t.execWhenFinished cb w now before after
        = (after - before,
           { startTime := (t.startTime + t.delay_uS) % U64, delay_uS := t.delay_uS,
             running := true, finishNow := false },
           (cb (w, t.stop)).1)) := by
  constructor
  · intro h
    have h2 := justFinished_false_unchanged t now h
    simp only [softTimer.execWhenFinished, h, h2, Bool.false_eq_true, if_false]
  · intro h
    have h2 := justFinished_true_stops t now h
    have h3 : (after + U64 - before) % U64 = after - before := by
      unfold U64 at hafter ⊢
      omega
    simp only [softTimer.execWhenFinished, h, h2, if_true, h3, hcb]
    rfl

/-- C13 witness: a counting callback; the timer armed at 5000 for 1000 is
checked at 6000, the callback runs from 6001 to 6040. -/
theorem execWhenFinished_reschedules_witness :
    (6001 ≤ 6040) ∧ 6040 < U64
    ∧ (softTimer.justFinished ⟨5000, 1000, true, false⟩ 6000).1 = true
    ∧ softTimer.execWhenFinished ⟨5000, 1000, true, false⟩
        (fun x : Nat × softTimer => (x.1 + 1, x.2)) 0 6000 6001 6040
        = (6040 - 6001, ⟨(5000 + 1000) % U64, 1000, true, false⟩, 0 + 1)
    ∧ softTimer.execWhenFinished ⟨5000, 1000, true, false⟩
        (fun x : Nat × softTimer => (x.1 + 1, x.2)) 0 5500 5501 5540
        = (0, ⟨5000, 1000, true, false⟩, 0) :=
  ⟨by decide, by decide, by decide,
    (execWhenFinished_reschedules ⟨5000, 1000, true, false⟩
      (fun x : Nat × softTimer => (x.1 + 1, x.2)) 0 6000 6001 6040
      (fun _ _ => rfl) (by decide) (by decide)).2 (by decide),
    (execWhenFinished_reschedules ⟨5000, 1000, true, false⟩
      (fun x : Nat × softTimer => (x.1 + 1, x.2)) 0 5500 5501 5540
      (fun _ _ => rfl) (by decide) (by decide)).1 (by decide)⟩

/-- C13 does not hold for every timer: after `start(2^64 - 1, 0)` at clock 1 and
`finish()`, the check at clock 2 succeeds, the callback runs once, and the timer
is re-armed with `startTime = 0`, not `1 + (2^64 - 1)`. -/
theorem execWhenFinished_wraps_startTime :
    ((softTimer.new.start 18446744073709551615 0 1).finish.justFinished 2).1 = true
    ∧ ((softTimer.new.start 18446744073709551615 0 1).finish.execWhenFinished
        (fun x : Nat × softTimer => (x.1 + 1, x.2)) 0 2 3 4).2.1.startTime = 0
    ∧ ((softTimer.new.start 18446744073709551615 0 1).finish.execWhenFinished
        (fun x : Nat × softTimer => (x.1 + 1, x.2)) 0 2 3 4).2.1.startTime
        ≠ (softTimer.new.start 18446744073709551615 0 1).finish.startTime
          + (softTimer.new.start 18446744073709551615 0 1).finish.delay_uS := by
  decide

/-- C14: on a running timer, whatever the clock reads, `finish()` makes the
next `justFinished()` return true and `getRemaining()` return 0; `finish()`
itself sets `finishNow` and leaves `running`, `startTime` and `delay` as they
were. -/
theorem finish_forces_completion (t : softTimer) (now : Nat) (hr : t.running = true) :
    (t.finish.justFinished now).1 = true
    ∧ t.finish.getRemaining now = 0
    ∧ t.finish = { t with finishNow := true }
    ∧ t.finish.running = t.running
    ∧ t.finish.startTime = t.startTime
    ∧ t.finish.delay_uS = t.delay_uS := by
  refine ⟨?_, ?_, rfl, rfl, rfl, rfl⟩
  · simp [softTimer.justFinished, softTimer.finish, hr]
  · simp [softTimer.getRemaining, softTimer.finish, hr]

/-- C14 witness: a one-second timer armed at clock 5000, finished at once. -/
theorem finish_forces_completion_witness :
    (softTimer.new.start 1000000 0 5000).running = true
    ∧ ((softTimer.new.start 1000000 0 5000).finish.justFinished 5000).1 = true
    ∧ (softTimer.new.start 1000000 0 5000).finish.getRemaining 5000 = 0 :=
  have h := finish_forces_completion (softTimer.new.start 1000000 0 5000) 5000 rfl
  ⟨rfl, h.1, h.2.1⟩

/-- C15, as the code has it: `start(delay, deferBy)` at clock `t0`, with
`t0 + deferBy + delay` below `2^64`, sets `startTime = t0 + deferBy`,
`running = true`, `finishNow = false`; with no `finish()` in between, for
`delay > 0` a `justFinished()` at clock `now` returns true exactly when
`now ≥ t0 + deferBy + delay`, and for `delay = 0` it returns true at every
clock, the deferral included. -/
theorem start_arms_deadline (t : softTimer) (delay deferBy t0 : Nat)
    (h : t0 + deferBy + delay < U64) :
    (t.start delay deferBy t0).startTime = t0 + deferBy
    ∧ (t.start delay deferBy t0).delay_uS = delay
    ∧ (t.start delay deferBy t0).running = true
    ∧ (t.start delay deferBy t0).finishNow = false
    ∧ (0 < delay → ∀ now,
        ((t.start delay deferBy t0).justFinished now).1 = true ↔ t0 + deferBy + delay ≤ now)
    ∧ (delay = 0 → ∀ now, ((t.start delay deferBy t0).justFinished now).1 = true) := by
  have hst : (t.start delay deferBy t0).startTime = t0 + deferBy := by
    simp only [softTimer.start]
    exact Nat.mod_eq_of_lt (by omega)
  refine ⟨hst, rfl, rfl, rfl, ?_, ?_⟩
  · intro hpos now
    constructor
    · intro hj
      by_contra hlt
      have := justFinished_before_deadline (t.start delay deferBy t0) now rfl hpos
        (by rw [hst]; show now < t0 + deferBy + delay; omega)
      rw [this] at hj
      exact Bool.false_ne_true hj
    · intro hle
      rw [justFinished_at_deadline (t.start delay deferBy t0) now rfl
        (by rw [hst]; exact hle)]
  · intro hz now
    subst hz
    simp [softTimer.justFinished, softTimer.start]

/-- C15 witness: `start(1000, 250)` at clock 5000. -/
theorem start_arms_deadline_witness :
    5000 + 250 + 1000 < U64
    ∧ (softTimer.new.start 1000 250 5000).startTime = 5000 + 250
    ∧ (((softTimer.new.start 1000 250 5000).justFinished 6249).1 = true
        ↔ 5000 + 250 + 1000 ≤ 6249)
    ∧ (((softTimer.new.start 1000 250 5000).justFinished 6250).1 = true
        ↔ 5000 + 250 + 1000 ≤ 6250) :=
  have h := start_arms_deadline softTimer.new 1000 250 5000 (by decide)
  ⟨by decide, h.1, h.2.2.2.2.1 (by decide) 6249, h.2.2.2.2.1 (by decide) 6250⟩

/-- C15 does not hold for every delay: after `start(0, 10)` at clock 100 a
`justFinished()` at clock 100 returns true although `100 < 100 + 10 + 0`. -/
theorem start_zero_delay_ignores_defer :
    100 + 10 + 0 < U64
    ∧ ((softTimer.new.start 0 10 100).justFinished 100).1 = true
    ∧ ¬ (100 + 10 + 0 ≤ 100) := by
  decide

/-- C16: `getRemaining()` never exceeds `delay` and never wraps below zero. For
a stopped timer it is 0; for a running timer it is 0 if `finish()` was called or
the elapsed time has reached `delay`, and otherwise it is `delay` minus the
elapsed time exactly; the elapsed time is 0 whenever the clock reads less than
`startTime`, and the clock minus `startTime` otherwise. -/
theorem getRemaining_bounds (t : softTimer) (now : Nat) :
    t.getRemaining now ≤ t.delay_uS
    ∧ (t.running = false → t.getRemaining now = 0)
    ∧ (t.running = true → (t.finishNow = true ∨ t.delay_uS ≤ t.getElapsed now) →
        t.getRemaining now = 0)
    ∧ (t.running = true → t.finishNow = false → t.getElapsed now < t.delay_uS →
        t.getRemaining now + t.getElapsed now = t.delay_uS)
    ∧ (now < t.startTime → t.getElapsed now = 0)
    ∧ (t.startTime ≤ now → t.getElapsed now + t.startTime = now) := by
  refine ⟨?_, ?_, ?_, ?_, ?_, ?_⟩
  · unfold softTimer.getRemaining
    split
    · simp only []
      split
      · exact Nat.zero_le _
      · exact Nat.sub_le _ _
    · exact Nat.zero_le _
  · intro hr
    simp [softTimer.getRemaining, hr]
  · intro hr hc
    rcases hc with hf | he
    · simp [softTimer.getRemaining, hr, hf]
    · simp [softTimer.getRemaining, hr, he]
  · intro hr hf he
    have hne : ¬ (t.delay_uS ≤ t.getElapsed now) := by omega
    simp only [softTimer.getRemaining, hr, hf, if_true, Bool.false_or, ge_iff_le,
      decide_eq_true_eq, hne, if_false]
    omega
  · intro hlt
    simp [softTimer.getElapsed, hlt]
  · intro hle
    have hnlt : ¬ (now < t.startTime) := by omega
    simp only [softTimer.getElapsed, hnlt, if_false]
    omega

/-- C16 witness: a timer armed at 5000 for 1000, read at 5400, at 4000, at 7000,
and after `stop()`. -/
theorem getRemaining_bounds_witness :
    softTimer.getRemaining ⟨5000, 1000, true, false⟩ 5400
        + softTimer.getElapsed ⟨5000, 1000, true, false⟩ 5400 = 1000
    ∧ softTimer.getElapsed ⟨5000, 1000, true, false⟩ 4000 = 0
    ∧ softTimer.getRemaining ⟨5000, 1000, true, false⟩ 7000 = 0
    ∧ softTimer.getRemaining ⟨5000, 1000, false, false⟩ 5400 = 0 :=
  ⟨(getRemaining_bounds ⟨5000, 1000, true, false⟩ 5400).2.2.2.1 rfl rfl (by decide),
   (getRemaining_bounds ⟨5000, 1000, true, false⟩ 4000).2.2.2.2.1 (by decide),
   (getRemaining_bounds ⟨5000, 1000, true, false⟩ 7000).2.2.1 rfl (Or.inr (by decide)),
   (getRemaining_bounds ⟨5000, 1000, false, false⟩ 5400).2.1 rfl⟩

/-- C17 evaluated on the code: `getElapsed()` does not look at `running`. A
timer fresh from its constructor (stopped, `startTime = 0`) reports 5000 at
clock 5000, and a timer armed at clock 5000 and then stopped reports 4000 at
clock 9000; for every stopped timer the value is the clock minus `startTime`
once the clock has reached `startTime`. -/
theorem getElapsed_ignores_running :
    softTimer.new.running = false
    ∧ softTimer.new.getElapsed 5000 = 5000
    ∧ (softTimer.new.start 1000 0 5000).stop.running = false
    ∧ (softTimer.new.start 1000 0 5000).stop.getElapsed 9000 = 4000
    ∧ ∀ (t : softTimer) (now : Nat), t.running = false → t.startTime ≤ now →
        t.getElapsed now = now - t.startTime := by
  refine ⟨rfl, by decide, rfl, by decide, ?_⟩
  intro t now _ hle
  have hnlt : ¬ (now < t.startTime) := by omega
  simp only [softTimer.getElapsed, hnlt, if_false]

/-- C18, as the code has it: a button update never writes `timePressed`. On
every update, one that moves the cell into JustPressed (state 01) included, it
is left unchanged; the update changes `btnState` and nothing else. -/
theorem interpBtnPress_keeps_timePressed (b : buttonDef) (isPress : Bool) :
    (b.interpBtnPress isPress).timePressed = b.timePressed
    ∧ ((b.interpBtnPress isPress).btnState = BTN_STATE_NEWPRESS →
        (b.interpBtnPress isPress).timePressed = b.timePressed)
    ∧ b.interpBtnPress isPress
        = { b with btnState := (b.interpBtnPress isPress).btnState } :=
  ⟨rfl, fun _ => rfl, rfl⟩

/-- C18 witness: an idle cell stamped 1234 earlier receives a pressed sample and
moves into JustPressed. -/
theorem interpBtnPress_keeps_timePressed_witness :
    (buttonDef.interpBtnPress ⟨BTN_STATE_OFF, 1234⟩ true).btnState = BTN_STATE_NEWPRESS
    ∧ (buttonDef.interpBtnPress ⟨BTN_STATE_OFF, 1234⟩ true).timePressed = 1234 :=
  ⟨by decide,
    (interpBtnPress_keeps_timePressed ⟨BTN_STATE_OFF, 1234⟩ true).2.1 (by decide)⟩

/-- C18 does not hold as worded: an idle cell with `timePressed = 0` that
receives a pressed sample while the clock reads 5000 moves into JustPressed and
still has `timePressed = 0`, not 5000. -/
theorem interpBtnPress_no_time_stamp :
    (buttonDef.interpBtnPress ⟨BTN_STATE_OFF, 0⟩ true).btnState = BTN_STATE_NEWPRESS
    ∧ (buttonDef.interpBtnPress ⟨BTN_STATE_OFF, 0⟩ true).timePressed = 0
    ∧ (buttonDef.interpBtnPress ⟨BTN_STATE_OFF, 0⟩ true).timePressed ≠ 5000 := by
  decide

/-- C19: JustPressed and JustReleased last one poll. From JustPressed no sample
gives JustPressed again, from JustReleased no sample gives JustReleased again;
a sample of 1 after JustPressed gives Held and a sample of 0 after JustReleased
gives Idle. -/
theorem interpBtnPress_transient_states (timePressed : Nat) (isPress : Bool) :
    (buttonDef.interpBtnPress ⟨BTN_STATE_NEWPRESS, timePressed⟩ isPress).btnState
        ≠ BTN_STATE_NEWPRESS
    ∧ (buttonDef.interpBtnPress ⟨BTN_STATE_RELEASED, timePressed⟩ isPress).btnState
        ≠ BTN_STATE_RELEASED
    ∧ (buttonDef.interpBtnPress ⟨BTN_STATE_NEWPRESS, timePressed⟩ true).btnState
        = BTN_STATE_HELD
    ∧ (buttonDef.interpBtnPress ⟨BTN_STATE_RELEASED, timePressed⟩ false).btnState
        = BTN_STATE_OFF := by
  cases isPress <;>
    simp only [buttonDef.interpBtnPress, BTN_STATE_NEWPRESS, BTN_STATE_RELEASED,
      BTN_STATE_HELD, BTN_STATE_OFF] <;> decide

/-- C20: the catalog holds 13 tunings; in each, `cycleLength` equals the number
of key entries listed, every listed entry has a name, and the number of entries
is at most `MAX_SCALE_DIVISIONS` = 72. -/
theorem tuningOptions_cycleLength_counts_keys :
    tuningOptions.length = TUNINGCOUNT
    ∧ MAX_SCALE_DIVISIONS = 72
    ∧ ∀ t ∈ tuningOptions,
        t.cycleLength = t.keyChoices.length
        ∧ t.keyChoices.length ≤ MAX_SCALE_DIVISIONS
        ∧ ∀ k ∈ t.keyChoices, k.name ≠ "" := by
  decide

/-- C21 evaluated on the catalog: over all 13 tunings and all `k < cycleLength`,
the only key whose number is not `keyChoices[0].val_int + k` is key 6 of 41-EDO:
"vD" is listed with -24, the same number as the next key " D", where one step
below " D" is -25. Every other key of every tuning is one step above the key
before it. -/
theorem keyChoices_offsets_checked :
    ((List.range TUNINGCOUNT).flatMap fun t =>
        match tuningOptions[t]? with
        | some tu =>
          ((List.range tu.cycleLength).filter fun k =>
            (tu.keyChoices.getD k (SelectOptionInt.mk "" 0)).val_int
              != tu.spanCtoA + (k : Int)).map fun k => (t, k)
        | none => []) = [(TUNING_41EDO, 6)]
    ∧ (tuningOptions[TUNING_41EDO]?.map fun tu =>
        ((tu.keyChoices.drop 5).take 3).map fun k => (k.name, k.val_int))
        = some [(" Dd", -26), ("vD", -24), (" D", -24)]
    ∧ (tuningOptions[TUNING_41EDO]?.map fun tu => tu.spanCtoA + 6) = some (-25) := by
  decide

theorem palette_colorNum_checked :
    ∀ t, t < 13 → ∀ d, d < 72 →
      (match tuningOptions[t]?, palette[t]? with
        | some tu, some p =>
          decide (d < tu.cycleLength →
            1 ≤ p.colorNum.getD d 0 ∧ p.colorNum.getD d 0 ≤ p.swatch.length
              ∧ p.swatch.length ≤ 72)
        | _, _ => false) = true := by
  decide

theorem getColor_of_colorNum (p : paletteDef) (d : Nat) (hd : d < 72)
    (h1 : 1 ≤ p.colorNum.getD d 0) (h2 : p.colorNum.getD d 0 ≤ p.swatch.length)
    (h3 : p.swatch.length ≤ 72) :
    ∃ c, p.swatch[p.colorNum.getD d 0 - 1]? = some c ∧ p.getColor d = some c := by
  have hlt : p.colorNum.getD d 0 - 1 < p.swatch.length := by omega
  refine ⟨p.swatch[p.colorNum.getD d 0 - 1], List.getElem?_eq_getElem hlt, ?_⟩
  have hidx : (((p.colorNum.getD d 0 : Nat) : Int) - 1).toNat = p.colorNum.getD d 0 - 1 := by
    omega
  have hrange : 0 ≤ ((p.colorNum.getD d 0 : Nat) : Int) - 1
      ∧ ((p.colorNum.getD d 0 : Nat) : Int) - 1 < ((MAX_SCALE_DIVISIONS : Nat) : Int) := by
    simp only [MAX_SCALE_DIVISIONS]
    omega
  simp only [paletteDef.getColor, MAX_SCALE_DIVISIONS, hd, if_true]
  simp only [MAX_SCALE_DIVISIONS] at hrange
  rw [if_pos hrange, hidx, List.getD_eq_getElem _ _ hlt]

theorem palette_entry_of_catalog (t d : Nat) (tu : tuningDef) (p : paletteDef)
    (htu : tuningOptions[t]? = some tu) (hp : palette[t]? = some p)
    (hd : d < tu.cycleLength) :
    d < 72 ∧ 1 ≤ p.colorNum.getD d 0 ∧ p.colorNum.getD d 0 ≤ p.swatch.length
      ∧ p.swatch.length ≤ 72 := by
  have ht : t < 13 := by
    have := (List.getElem?_eq_some.mp htu).1
    simpa [tuningOptions] using this
  have hc := tuningOptions_cycleLength_checked t ht
  rw [htu] at hc
  have hcl : tu.cycleLength ≤ 72 := by
    simp only [Option.map_some', Option.some.injEq, decide_eq_true_eq] at hc
    exact hc.2
  have hd72 : d < 72 := by omega
  have hchk := palette_colorNum_checked t ht d hd72
  rw [htu, hp] at hchk
  simp only [decide_eq_true_eq] at hchk
  exact ⟨hd72, hchk hd⟩

/-- C22: for each of the 13 tunings `t` and every degree `d` below its
`cycleLength`, `palette[t].colorNum[d]` lies between 1 and the number of
swatches defined in `palette[t]`, so `getColor(d)` returns one of the defined
swatches; and for a preset with a catalog tuning every `keyDegree` gets such a
color. -/
theorem palette_colorNum_in_range :
    palette.length = TUNINGCOUNT
    ∧ (∀ (t d : Nat) (tu : tuningDef) (p : paletteDef),
        tuningOptions[t]? = some tu → palette[t]? = some p →
        d < tu.cycleLength →
        1 ≤ p.colorNum.getD d 0 ∧ p.colorNum.getD d 0 ≤ p.swatch.length
        ∧ ∃ c, p.swatch[p.colorNum.getD d 0 - 1]? = some c ∧ p.getColor d = some c)
    ∧ (∀ (pr : presetDef) (g : Int), 0 ≤ pr.tuningIndex → pr.tuningIndex < TUNINGCOUNT →
        ∃ r p c, pr.keyDegree g = some r ∧ palette[pr.tuningIndex.toNat]? = some p
          ∧ p.getColor r.toNat = some c ∧ c ∈ p.swatch) := by
  refine ⟨by decide, ?_, ?_⟩
  · intro t d tu p htu hp hd
    obtain ⟨hd72, h1, h2, h3⟩ := palette_entry_of_catalog t d tu p htu hp hd
    exact ⟨h1, h2, getColor_of_colorNum p d hd72 h1 h2 h3⟩
  · intro pr g h0 h1
    obtain ⟨tu, htu, hpos, hle⟩ := tuning_of_catalog_index pr h0 h1
    obtain ⟨r, hr, hr0, hr1⟩ :=
      positiveMod_small (intAdd g (intSub tu.spanCtoA pr.keyStepsFromA))
        (tu.cycleLength : Int) (by exact_mod_cast hpos) (by omega)
    have hkd : pr.keyDegree g = some r := by
      simp [presetDef.keyDegree, presetDef.keyStepsFromC, htu, hr]
    have htu2 : tuningOptions[pr.tuningIndex.toNat]? = some tu := by
      simpa [presetDef.tuning, h0] using htu
    have hlt : pr.tuningIndex.toNat < palette.length := by
      have : palette.length = 13 := by decide
      simp only [TUNINGCOUNT] at h1
      omega
    have hp : palette[pr.tuningIndex.toNat]? = some palette[pr.tuningIndex.toNat] :=
      List.getElem?_eq_getElem hlt
    have hd : r.toNat < tu.cycleLength := by omega
    obtain ⟨hd72, h1, h2, h3⟩ :=
      palette_entry_of_catalog pr.tuningIndex.toNat r.toNat tu _ htu2 hp hd
    obtain ⟨c, hc1, hc2⟩ := getColor_of_colorNum _ r.toNat hd72 h1 h2 h3
    exact ⟨r, _, c, hkd, hp, hc2, List.getElem?_mem hc1⟩

/-- C22 witness: degree 7 of 41-EDO, and the key 100 steps below C of a 41-EDO
preset. -/
theorem palette_colorNum_in_range_witness :
    (∃ tu p, tuningOptions[6]? = some tu ∧ palette[6]? = some p ∧ 7 < tu.cycleLength
      ∧ 1 ≤ p.colorNum.getD 7 0 ∧ p.colorNum.getD 7 0 ≤ p.swatch.length)
    ∧ (∃ r p c, presetDef.keyDegree ⟨"w", 6, 0, 0, 2, 0⟩ (-100) = some r
        ∧ palette[(6 : Int).toNat]? = some p ∧ p.getColor r.toNat = some c ∧ c ∈ p.swatch) :=
  ⟨⟨_, _, rfl, rfl, by decide,
      (palette_colorNum_in_range.2.1 6 7 _ _ rfl rfl (by decide)).1,
      (palette_colorNum_in_range.2.1 6 7 _ _ rfl rfl (by decide)).2.1⟩,
    palette_colorNum_in_range.2.2 ⟨"w", 6, 0, 0, 2, 0⟩ (-100) (by decide) (by decide)⟩

/-- C23: for every color `c`, `tint()` returns hue `c.hue`, saturation
`min(c.sat, 120)` and value 255; `shade()` returns hue `c.hue`, saturation
`min(c.sat, 85)` and value 127. Both are functions of `c` that produce a new
color, and the saturation of the shade never exceeds that of the tint. -/
theorem tint_shade_values (c : colorDef) :
    c.tint = { hue := c.hue, sat := min c.sat SAT_MODERATE, val := VALUE_FULL }
    ∧ c.shade = { hue := c.hue, sat := min c.sat SAT_DULL, val := VALUE_LOW }
    ∧ SAT_MODERATE = 120 ∧ VALUE_FULL = 255 ∧ SAT_DULL = 85 ∧ VALUE_LOW = 127
    ∧ c.shade.sat ≤ c.tint.sat := by
  have ht : (if c.sat > SAT_MODERATE then SAT_MODERATE else c.sat) = min c.sat SAT_MODERATE := by
    simp only [SAT_MODERATE]
    split <;> omega
  have hs : (if c.sat > SAT_DULL then SAT_DULL else c.sat) = min c.sat SAT_DULL := by
    simp only [SAT_DULL]
    split <;> omega
  refine ⟨?_, ?_, rfl, rfl, rfl, rfl, ?_⟩
  · simp only [colorDef.tint, ht]
  · simp only [colorDef.shade, hs]
  · simp only [colorDef.tint, colorDef.shade, SAT_MODERATE, SAT_DULL]
    split <;> split <;> omega

theorem getClick_same_level (k : rotaryKnob) (r : Nat → Bool) (h : r k.Cpin = k.clicked) :
    k.getClick r = (0, k) := by
  cases k with
  | mk tb a b c st cl bt =>
    simp only at h
    subst h
    simp [rotaryKnob.getClick]

theorem clicks_held_level (level : Bool) (rs : List (Nat → Bool)) :
    ∀ k : rotaryKnob, k.clicked = level → (∀ r ∈ rs, r k.Cpin = level) →
      (k.clicks rs).1.count 1 = 0 := by
  induction rs with
  | nil =>
    intro k _ _
    simp [rotaryKnob.clicks]
  | cons r rest ih =>
    intro k hk hall
    have hr : r k.Cpin = k.clicked := by rw [hk]; exact hall r (List.mem_cons_self r rest)
    have h1 := getClick_same_level k r hr
    have h2 := ih k hk (fun x hx => hall x (List.mem_cons_of_mem r hx))
    simp only [rotaryKnob.clicks, h1]
    rw [List.count_cons_of_ne (by decide)]
    exact h2

/-- C24: `getClick()` returns 1 exactly when the stored sample is false and the
current sample of the click pin is true, and 0 otherwise; it stores the current
sample and changes nothing else. So a true-to-false change reports nothing, a
run of calls with the pin held at one level reports at most one click, and the
first call after construction returns 0. -/
theorem getClick_rising_edge (k : rotaryKnob) (r : Nat → Bool) :
    ((k.getClick r).1 = 1 ↔ (k.clicked = false ∧ r k.Cpin = true))
    ∧ ((k.getClick r).1 = 0 ∨ (k.getClick r).1 = 1)
    ∧ (k.getClick r).2 = { k with clicked := r k.Cpin }
    ∧ (∀ (level : Bool) (rs : List (Nat → Bool)), (∀ x ∈ rs, x k.Cpin = level) →
        (k.clicks rs).1.count 1 ≤ 1)
    ∧ ∀ (a b c : Nat) (bufferTurns : Bool),
        ((rotaryKnob.new a b c bufferTurns).getClick r).1 = 0 := by
  refine ⟨?_, ?_, rfl, ?_, ?_⟩
  · cases hc : k.clicked <;> cases hr : r k.Cpin <;> simp [rotaryKnob.getClick, hc, hr]
  · cases hc : k.clicked <;> cases hr : r k.Cpin <;> simp [rotaryKnob.getClick, hc, hr]
  · intro level rs hall
    cases rs with
    | nil => simp [rotaryKnob.clicks]
    | cons x rest =>
      have hx : x k.Cpin = level := hall x (List.mem_cons_self x rest)
      have hrest := clicks_held_level level rest (k.getClick x).2 hx
        (fun y hy => hall y (List.mem_cons_of_mem x hy))
      simp only [rotaryKnob.clicks]
      by_cases h1 : (k.getClick x).1 = 1
      · rw [h1, List.count_cons_self, hrest]
      · rw [List.count_cons_of_ne (fun h => h1 h.symm), hrest]
        exact Nat.zero_le 1
  · intro a b c bufferTurns
    cases hr : r c <;> simp [rotaryKnob.getClick, rotaryKnob.new, hr]

/-- C24 witness: the click pin (pin 2) held low over three calls on a knob
whose stored sample is high. -/
theorem getClick_rising_edge_witness :
    (∀ x ∈ [pinLevels 0 1 true true, pinLevels 0 1 true true], x 2 = true)
    ∧ ((rotaryKnob.new 0 1 2 true).clicks
        [pinLevels 0 1 true true, pinLevels 0 1 true true]).1.count 1 ≤ 1
    ∧ ((rotaryKnob.new 0 1 2 true).getClick (pinLevels 0 1 true true)).1 = 0 :=
  have h := getClick_rising_edge (rotaryKnob.new 0 1 2 true) (pinLevels 0 1 true true)
  ⟨by decide, h.2.2.2.1 true _ (by decide), h.2.2.2.2 0 1 2 true⟩

theorem turnBuffer_keep (tb : Int) (h : isInt32 tb) (p q : Nat) (hp : p = 0) (hq : q = 0) :
    intSub (intAdd tb (p : Int)) (q : Int) = tb := by
  subst hp hq
  unfold isInt32 at h
  simp only [intSub, intAdd, wrap32]
  omega

theorem turnBuffer_up (tb : Int) (h : isInt32 tb) (hmax : tb < 2147483647) (p q : Nat)
    (hp : p = 1) (hq : q = 0) : intSub (intAdd tb (p : Int)) (q : Int) = tb + 1 := by
  subst hp hq
  unfold isInt32 at h
  simp only [intSub, intAdd, wrap32]
  omega

theorem turnBuffer_down (tb : Int) (h : isInt32 tb) (hmin : -2147483648 < tb) (p q : Nat)
    (hp : p = 0) (hq : q = 1) : intSub (intAdd tb (p : Int)) (q : Int) = tb - 1 := by
  subst hp hq
  unfold isInt32 at h
  simp only [intSub, intAdd, wrap32]
  omega

/-- C25, as the code has it: with samples given as (pin A, pin B), from the
neutral state and with the turn buffer at any `int` value below `2^31 - 1`, the
sequence (1,1),(0,1),(0,0),(1,0),(1,1) takes `update()` through states 1, 2, 3
to state 8 and adds 1 to the turn buffer (counter-clockwise click); with the
turn buffer at any `int` value above `-2^31`, the sequence
(1,1),(1,0),(0,0),(0,1),(1,1) takes it through states 4, 5, 6 to state 16 and
subtracts 1 (clockwise click). -/
theorem update_documented_clicks (k : rotaryKnob) (rs : List (Nat → Bool))
    (hs : k.state = 0) (hi : isInt32 k.turnBuffer) :
    (k.turnBuffer < 2147483647 →
      rs.map (fun r => (r k.Apin, r k.Bpin))
        = [(true, true), (false, true), (false, false), (true, false), (true, true)] →
      k.trace rs = some [(0, k.turnBuffer), (1, k.turnBuffer), (2, k.turnBuffer),
        (3, k.turnBuffer), (8, k.turnBuffer + 1)])
    ∧ (-2147483648 < k.turnBuffer →
      rs.map (fun r => (r k.Apin, r k.Bpin))
        = [(true, true), (true, false), (false, false), (false, true), (true, true)] →
      k.trace rs = some [(0, k.turnBuffer), (4, k.turnBuffer), (5, k.turnBuffer),
        (6, k.turnBuffer), (16, k.turnBuffer - 1)]) := by
  constructor
  · intro hmax h
    obtain ⟨r1, r2, r3, r4, r5, rfl⟩ := list_of_length_five rs (by
      have := congrArg List.length h
      simpa using this)
    simp only [List.map, List.cons.injEq, Prod.mk.injEq, and_true] at h
    obtain ⟨⟨a1, b1⟩, ⟨a2, b2⟩, ⟨a3, b3⟩, ⟨a4, b4⟩, a5, b5⟩ := h
    have e1 := update_table_entry k r1 0 0 k.turnBuffer k.turnBuffer true true hs rfl b1 a1
      (by decide) (turnBuffer_keep _ hi _ _ (by decide) (by decide))
    have e2 := update_table_entry { k with state := 0, turnBuffer := k.turnBuffer } r2 0 1
      k.turnBuffer k.turnBuffer true false rfl rfl b2 a2
      (by decide) (turnBuffer_keep _ hi _ _ (by decide) (by decide))
    have e3 := update_table_entry { k with state := 1, turnBuffer := k.turnBuffer } r3 1 2
      k.turnBuffer k.turnBuffer false false rfl rfl b3 a3
      (by decide) (turnBuffer_keep _ hi _ _ (by decide) (by decide))
    have e4 := update_table_entry { k with state := 2, turnBuffer := k.turnBuffer } r4 2 3
      k.turnBuffer k.turnBuffer false true rfl rfl b4 a4
      (by decide) (turnBuffer_keep _ hi _ _ (by decide) (by decide))
    have e5 := update_table_entry { k with state := 3, turnBuffer := k.turnBuffer } r5 3 8
      k.turnBuffer (k.turnBuffer + 1) true true rfl rfl b5 a5
      (by decide) (turnBuffer_up _ hi hmax _ _ (by decide) (by decide))
    simp only [rotaryKnob.trace, e1, e2, e3, e4, e5]
  · intro hmin h
    obtain ⟨r1, r2, r3, r4, r5, rfl⟩ := list_of_length_five rs (by
      have := congrArg List.length h
      simpa using this)
    simp only [List.map, List.cons.injEq, Prod.mk.injEq, and_true] at h
    obtain ⟨⟨a1, b1⟩, ⟨a2, b2⟩, ⟨a3, b3⟩, ⟨a4, b4⟩, a5, b5⟩ := h
    have e1 := update_table_entry k r1 0 0 k.turnBuffer k.turnBuffer true true hs rfl b1 a1
      (by decide) (turnBuffer_keep _ hi _ _ (by decide) (by decide))
    have e2 := update_table_entry { k with state := 0, turnBuffer := k.turnBuffer } r2 0 4
      k.turnBuffer k.turnBuffer false true rfl rfl b2 a2
      (by decide) (turnBuffer_keep _ hi _ _ (by decide) (by decide))
    have e3 := update_table_entry { k with state := 4, turnBuffer := k.turnBuffer } r3 4 5
      k.turnBuffer k.turnBuffer false false rfl rfl b3 a3
      (by decide) (turnBuffer_keep _ hi _ _ (by decide) (by decide))
    have e4 := update_table_entry { k with state := 5, turnBuffer := k.turnBuffer } r4 5 6
      k.turnBuffer k.turnBuffer true false rfl rfl b4 a4
      (by decide) (turnBuffer_keep _ hi _ _ (by decide) (by decide))
    have e5 := update_table_entry { k with state := 6, turnBuffer := k.turnBuffer } r5 6 16
      k.turnBuffer (k.turnBuffer - 1) true true rfl rfl b5 a5
      (by decide) (turnBuffer_down _ hi hmin _ _ (by decide) (by decide))
    simp only [rotaryKnob.trace, e1, e2, e3, e4, e5]

/-- C25 witness: a knob on pins A = 0, B = 1, fresh from its constructor. -/
theorem update_documented_clicks_witness :
    (rotaryKnob.new 0 1 2 true).state = 0 ∧ isInt32 (rotaryKnob.new 0 1 2 true).turnBuffer
    ∧ (rotaryKnob.new 0 1 2 true).trace (readingsAB 0 1
          [(true, true), (false, true), (false, false), (true, false), (true, true)])
        = some [(0, 0), (1, 0), (2, 0), (3, 0), (8, 0 + 1)]
    ∧ (rotaryKnob.new 0 1 2 true).trace (readingsAB 0 1
          [(true, true), (true, false), (false, false), (false, true), (true, true)])
        = some [(0, 0), (4, 0), (5, 0), (6, 0), (16, 0 - 1)] :=
  ⟨rfl, by decide,
    (update_documented_clicks (rotaryKnob.new 0 1 2 true) (readingsAB 0 1
      [(true, true), (false, true), (false, false), (true, false), (true, true)])
      rfl (by decide)).1 (by decide) (by decide),
    (update_documented_clicks (rotaryKnob.new 0 1 2 true) (readingsAB 0 1
      [(true, true), (true, false), (false, false), (false, true), (true, true)])
      rfl (by decide)).2 (by decide) (by decide)⟩

/-- C25 does not hold for every buffer value: with the turn buffer at `2^31 - 1`
the documented counter-clockwise sequence ends in state 8 with the buffer at
`-2^31`, not one more; with the buffer at `-2^31` the clockwise sequence ends in
state 16 with the buffer at `2^31 - 1`, not one less. -/
theorem update_documented_clicks_at_limit :
    rotaryKnob.trace ⟨2147483647, 0, 1, 2, 0, true, true⟩ (readingsAB 0 1
          [(true, true), (false, true), (false, false), (true, false), (true, true)])
        = some [(0, 2147483647), (1, 2147483647), (2, 2147483647), (3, 2147483647),
            (8, -2147483648)]
    ∧ rotaryKnob.trace ⟨-2147483648, 0, 1, 2, 0, true, true⟩ (readingsAB 0 1
          [(true, true), (true, false), (false, false), (false, true), (true, true)])
        = some [(0, -2147483648), (4, -2147483648), (5, -2147483648), (6, -2147483648),
            (16, 2147483647)]
    ∧ isInt32 2147483647 ∧ isInt32 (-2147483648)
    ∧ (-2147483648 : Int) ≠ 2147483647 + 1 ∧ (2147483647 : Int) ≠ -2147483648 - 1 := by
  decide

theorem stepsFromAnchor_along_axes (l : layoutDef) (ha : l.acrossSteps ≠ 0)
    (hd : l.dnLeftSteps ≠ 0) (r1 c1 r2 c2 : Nat) (hax : r1 = r2 ∨ c1 = c2)
    (hne : (r1, c1) ≠ (r2, c2)) : l.stepsFromAnchor r1 c1 ≠ l.stepsFromAnchor r2 c2 := by
  unfold layoutDef.stepsFromAnchor
  intro heq
  rcases hax with h | h
  · subst h
    have hc : c1 ≠ c2 := fun hc => hne (by rw [hc])
    have h2 : ((c1 : Int) - (c2 : Int)) * l.dnLeftSteps = 0 := by linarith
    rcases mul_eq_zero.mp h2 with h3 | h3
    · exact hc (by omega)
    · exact hd h3
  · subst h
    have hr : r1 ≠ r2 := fun hr => hne (by rw [hr])
    have h2 : ((r1 : Int) - (r2 : Int)) * l.acrossSteps = 0 := by linarith
    rcases mul_eq_zero.mp h2 with h3 | h3
    · exact hr (by omega)
    · exact ha h3

theorem layoutOptions_deltas_nonzero :
    ∀ l ∈ layoutOptions, l.acrossSteps ≠ 0 ∧ l.dnLeftSteps ≠ 0 := by
  decide

/-- C26, as the catalog has it: every layout has non-zero deltas, so two
distinct hexes in the same row, or in the same column, never get the same
`stepsFromAnchor`. Across rows and columns they can: every layout except the
53-EDO Wicki-Hayden (entry 28) and the 53-EDO Harmonic Table (entry 32) gives
some hex of the 16 by 10 grid the offset of another hex on the first row or
first column; those two layouts are one-to-one on the whole grid. -/
theorem layout_offsets_along_axes :
    (∀ l ∈ layoutOptions, l.acrossSteps ≠ 0 ∧ l.dnLeftSteps ≠ 0)
    ∧ (∀ l ∈ layoutOptions, ∀ r1 c1 r2 c2 : Nat, (r1 = r2 ∨ c1 = c2) →
        (r1, c1) ≠ (r2, c2) → l.stepsFromAnchor r1 c1 ≠ l.stepsFromAnchor r2 c2)
    ∧ (List.range layoutCount).filter (fun i =>
        match layoutOptions[i]? with
        | some l =>
          !((List.range ROWCOUNT).any fun r => (List.range COLCOUNT).any fun c =>
              (r, c) != (0, 0)
                && (l.stepsFromAnchor r 0 == l.stepsFromAnchor 0 c
                    || l.stepsFromAnchor r c == l.stepsFromAnchor 0 0))
        | none => false) = [28, 32]
    ∧ (∀ r1 c1 r2 c2 : Nat, r1 < ROWCOUNT → r2 < ROWCOUNT → c1 < COLCOUNT → c2 < COLCOUNT →
        (layoutDef.mk "Wicki-Hayden" true 64 9 (-31) TUNING_53EDO).stepsFromAnchor r1 c1
          = (layoutDef.mk "Wicki-Hayden" true 64 9 (-31) TUNING_53EDO).stepsFromAnchor r2 c2 →
        r1 = r2 ∧ c1 = c2)
    ∧ (∀ r1 c1 r2 c2 : Nat, r1 < ROWCOUNT → r2 < ROWCOUNT → c1 < COLCOUNT → c2 < COLCOUNT →
        (layoutDef.mk "Harmonic Table" false 75 (-31) 14 TUNING_53EDO).stepsFromAnchor r1 c1
          = (layoutDef.mk "Harmonic Table" false 75 (-31) 14 TUNING_53EDO).stepsFromAnchor r2 c2 →
        r1 = r2 ∧ c1 = c2)
    ∧ (layoutOptions[28]?.map fun l => (l.name, l.acrossSteps, l.dnLeftSteps, l.tuning))
        = some ("Wicki-Hayden", 9, -31, TUNING_53EDO)
    ∧ (layoutOptions[32]?.map fun l => (l.name, l.acrossSteps, l.dnLeftSteps, l.tuning))
        = some ("Harmonic Table", -31, 14, TUNING_53EDO) := by
  refine ⟨layoutOptions_deltas_nonzero, ?_, by decide, ?_, ?_, by decide, by decide⟩
  · intro l hl r1 c1 r2 c2 hax hne
    have h := layoutOptions_deltas_nonzero l hl
    exact stepsFromAnchor_along_axes l h.1 h.2 r1 c1 r2 c2 hax hne
  · intro r1 c1 r2 c2 h1 h2 h3 h4 heq
    simp only [layoutDef.stepsFromAnchor, ROWCOUNT, COLCOUNT] at *
    omega
  · intro r1 c1 r2 c2 h1 h2 h3 h4 heq
    simp only [layoutDef.stepsFromAnchor, ROWCOUNT, COLCOUNT] at *
    omega

/-- C26 witness: in the Janko layout the hexes (3, 1) and (3, 4) share a row. -/
theorem layout_offsets_along_axes_witness :
    (layoutDef.mk "Janko" false 65 (-1) (-1) TUNING_12EDO) ∈ layoutOptions
    ∧ ((3 : Nat), (1 : Nat)) ≠ (3, 4)
    ∧ (layoutDef.mk "Janko" false 65 (-1) (-1) TUNING_12EDO).stepsFromAnchor 3 1
        ≠ (layoutDef.mk "Janko" false 65 (-1) (-1) TUNING_12EDO).stepsFromAnchor 3 4 :=
  ⟨by simp [layoutOptions], by decide,
    layout_offsets_along_axes.2.1 _ (by simp [layoutOptions]) 3 1 3 4 (Or.inl rfl) (by decide)⟩

/-- C26 does not hold for every layout: in the 12-EDO Janko layout (across -1,
down-left -1) the distinct hexes (0, 1) and (1, 0) both get the offset -1, and
in Wicki-Hayden (across 2, down-left -7) the hexes (0, 0) and (7, 2) both get
the offset 0. -/
theorem layout_offsets_collide :
    (layoutOptions[2]?.map fun l => (l.name, l.acrossSteps, l.dnLeftSteps))
        = some ("Janko", -1, -1)
    ∧ (layoutOptions[2]?.map fun l => (l.stepsFromAnchor 0 1, l.stepsFromAnchor 1 0))
        = some (-1, -1)
    ∧ (layoutOptions[0]?.map fun l => (l.name, l.acrossSteps, l.dnLeftSteps))
        = some ("Wicki-Hayden", 2, -7)
    ∧ (layoutOptions[0]?.map fun l => (l.stepsFromAnchor 0 0, l.stepsFromAnchor 7 2))
        = some (0, 0)
    ∧ ((0 : Nat), (1 : Nat)) ≠ (1, 0) ∧ ((0 : Nat), (0 : Nat)) ≠ (7, 2)
    ∧ 7 < ROWCOUNT ∧ 2 < COLCOUNT := by
  decide

theorem update_of_tableEntry (k : rotaryKnob) (r : Nat → Bool) (st : Nat)
    (h : tableEntry k.state (r k.Bpin) (r k.Apin) = some st) :
    k.update r = some { k with
      state := st,
      turnBuffer := intSub (intAdd k.turnBuffer (((st &&& 8) >>> 3 : Nat) : Int))
        (((st &&& 16) >>> 4 : Nat) : Int) } :=
  update_table_entry k r k.state st k.turnBuffer _ (r k.Bpin) (r k.Apin) rfl rfl rfl rfl h rfl

theorem tableEntry_mask (s : Nat) (b a : Bool) :
    tableEntry s b a = tableEntry (s &&& 7) b a := by
  simp only [tableEntry, Nat.and_assoc, Nat.and_self]

theorem tableEntry_rows_checked :
    ∀ m, m < 7 → ∀ b a : Bool,
      (match tableEntry m b a with
        | some st =>
          decide (st ∈ knobStates
            ∧ (st &&& 8) >>> 3 = (if m = 3 ∧ b = true ∧ a = true then 1 else 0)
            ∧ (st &&& 16) >>> 4 = (if m = 6 ∧ b = true ∧ a = true then 1 else 0)
            ∧ (m = 0 → b = true → a = true → st = 0))
        | none => false) = true := by
  decide

theorem knobStates_masked : ∀ s ∈ knobStates, s &&& 7 < 7 := by
  decide

theorem update_turn_counted (k : rotaryKnob) (r : Nat → Bool) (hrow : k.state &&& 7 ≤ 6) :
    ∃ st, k.update r = some { k with
        state := st,
        turnBuffer := wrap32 (k.turnBuffer
          + (if k.state &&& 7 = 3 ∧ r k.Bpin = true ∧ r k.Apin = true then 1 else 0)
          - (if k.state &&& 7 = 6 ∧ r k.Bpin = true ∧ r k.Apin = true then 1 else 0)) }
      ∧ st ∈ knobStates
      ∧ (k.state &&& 7 = 0 → r k.Bpin = true → r k.Apin = true → st = 0) := by
  have hchk := tableEntry_rows_checked (k.state &&& 7) (by omega) (r k.Bpin) (r k.Apin)
  rw [← tableEntry_mask] at hchk
  cases he : tableEntry k.state (r k.Bpin) (r k.Apin) with
  | none => simp [he] at hchk
  | some st =>
    simp only [he, decide_eq_true_eq] at hchk
    obtain ⟨hmem, h8, h16, hz⟩ := hchk
    refine ⟨st, ?_, hmem, hz⟩
    rw [update_of_tableEntry k r st he, h8, h16]
    congr 2
    simp only [intSub, intAdd, wrap32]
    split <;> split <;> simp <;> omega

/-- C27, as the code has it: for every stored state whose row index
`state & 7` is inside the table (0 to 6, which covers the states 0-6, 8 and 16)
and every two-bit sample, `update()` adds 1 to the turn buffer, in `int`
arithmetic, exactly when the row index is 3 and the sample is 11, subtracts 1
exactly when the row index is 6 and the sample is 11, and otherwise leaves it
unchanged. Unless the buffer sits at an `int` limit the change is exact, so at
most 1 in size; and with the pins held at 11 after a completed turn (state 8 or
16) the next update returns to state 0 without counting again. -/
theorem update_counts_completed_turns (k : rotaryKnob) (r : Nat → Bool)
    (hrow : k.state &&& 7 ≤ 6) (hi : isInt32 k.turnBuffer) :
    ∃ k1, k.update r = some k1
      ∧ k1.turnBuffer = wrap32 (k.turnBuffer
          + (if k.state &&& 7 = 3 ∧ r k.Bpin = true ∧ r k.Apin = true then 1 else 0)
          - (if k.state &&& 7 = 6 ∧ r k.Bpin = true ∧ r k.Apin = true then 1 else 0))
      ∧ (-2147483648 < k.turnBuffer → k.turnBuffer < 2147483647 →
          k1.turnBuffer = k.turnBuffer
            + (if k.state &&& 7 = 3 ∧ r k.Bpin = true ∧ r k.Apin = true then 1 else 0)
            - (if k.state &&& 7 = 6 ∧ r k.Bpin = true ∧ r k.Apin = true then 1 else 0))
      ∧ ((k.state = 8 ∨ k.state = 16) → r k.Bpin = true → r k.Apin = true →
          k1.state = 0 ∧ k1.turnBuffer = k.turnBuffer) := by
  obtain ⟨st, hupd, _, hz⟩ := update_turn_counted k r hrow
  unfold isInt32 at hi
  refine ⟨_, hupd, rfl, ?_, ?_⟩
  · intro hlo hhi
    simp only [wrap32]
    split <;> split <;> omega
  · intro h8 hb ha
    have hm : k.state &&& 7 = 0 := by
      rcases h8 with h | h <;> rw [h] <;> decide
    refine ⟨hz hm hb ha, ?_⟩
    simp only [hm, wrap32]
    simp
    omega

/-- C27 witness: a knob in counter-clockwise state 3 with one turn buffered,
both pins high. -/
theorem update_counts_completed_turns_witness :
    (3 &&& 7 ≤ 6) ∧ isInt32 1
    ∧ ∃ k1, rotaryKnob.update ⟨1, 0, 1, 2, 3, true, true⟩ (pinLevels 0 1 true true) = some k1
      ∧ k1.turnBuffer = 1 + 1 - 0 :=
  have h := update_counts_completed_turns ⟨1, 0, 1, 2, 3, true, true⟩
    (pinLevels 0 1 true true) (by decide) (by decide)
  ⟨by decide, by decide, h.choose, h.choose_spec.1, by
    have h2 := h.choose_spec.2.2.1 (by decide) (by decide)
    simpa [pinLevels] using h2⟩

/-- C27 does not hold for every stored state and buffer: with the buffer at
`2^31 - 1`, state 3 and both pins high the update leaves the buffer at `-2^31`,
a change of more than 1; and with `state = 7` the row index is outside the
table, so the update has no defined result. -/
theorem update_at_limits :
    (rotaryKnob.update ⟨2147483647, 0, 1, 2, 3, true, true⟩ (pinLevels 0 1 true true)).map
        (fun k => k.turnBuffer) = some (-2147483648)
    ∧ (rotaryKnob.update ⟨2147483647, 0, 1, 2, 3, true, true⟩ (pinLevels 0 1 true true)).map
        (fun k => k.turnBuffer) ≠ some (2147483647 + 1)
    ∧ (rotaryKnob.update ⟨0, 0, 1, 2, 7, true, true⟩ (pinLevels 0 1 true true)).isNone
        = true := by
  decide

theorem update_in_knobStates (k : rotaryKnob) (r : Nat → Bool) (hrow : k.state &&& 7 ≤ 6) :
    ∃ k1, k.update r = some k1 ∧ k1.state ∈ knobStates
      ∧ k1.Apin = k.Apin ∧ k1.Bpin = k.Bpin := by
  obtain ⟨st, hupd, hmem, _⟩ := update_turn_counted k r hrow
  exact ⟨_, hupd, hmem, rfl, rfl⟩

theorem updates_stay_in_knobStates (rs : List (Nat → Bool)) :
    ∀ k : rotaryKnob, k.state ∈ knobStates →
      ∃ k1, k.updates rs = some k1 ∧ k1.state ∈ knobStates
        ∧ k1.Apin = k.Apin ∧ k1.Bpin = k.Bpin := by
  induction rs with
  | nil =>
    intro k hk
    exact ⟨k, rfl, hk, rfl, rfl⟩
  | cons r rest ih =>
    intro k hk
    have hrow : k.state &&& 7 ≤ 6 := Nat.le_of_lt_succ (knobStates_masked k.state hk)
    obtain ⟨k0, hupd, hmem, hA, hB⟩ := update_in_knobStates k r hrow
    obtain ⟨k1, h1, h2, h3, h4⟩ := ih k0 hmem
    refine ⟨k1, ?_, h2, h3.trans hA, h4.trans hB⟩
    simp only [rotaryKnob.updates, hupd]
    exact h1

/-- C28: starting from the constructor's state 0, every sequence of `update()`
calls has a result, and the state it leaves is one of 0, 1, 2, 3, 4, 5, 6, 8,
16. Hence the row index `state & 7` of the next lookup is at most 6, the column
index at most 3, the next update has a result too, and after state 8 or 16 the
row used is the neutral row 0. -/
theorem updates_never_leave_table (a b c : Nat) (bufferTurns : Bool)
    (rs : List (Nat → Bool)) :
    ∃ k1, (rotaryKnob.new a b c bufferTurns).updates rs = some k1
      ∧ k1.state ∈ [0, 1, 2, 3, 4, 5, 6, 8, 16]
      ∧ k1.state &&& 7 ≤ 6
      ∧ (∀ r : Nat → Bool, ((r k1.Bpin).toNat <<< 1) ||| (r k1.Apin).toNat ≤ 3)
      ∧ (∀ r : Nat → Bool, (k1.update r).isSome = true)
      ∧ ((k1.state = 8 ∨ k1.state = 16) → k1.state &&& 7 = 0) := by
  obtain ⟨k1, h1, h2, _, _⟩ :=
    updates_stay_in_knobStates rs (rotaryKnob.new a b c bufferTurns)
      (show (0 : Nat) ∈ knobStates by decide)
  have hrow : k1.state &&& 7 ≤ 6 := Nat.le_of_lt_succ (knobStates_masked k1.state h2)
  refine ⟨k1, h1, h2, hrow, ?_, ?_, ?_⟩
  · intro r
    cases r k1.Bpin <;> cases r k1.Apin <;> decide
  · intro r
    obtain ⟨st, hupd, _, _⟩ := update_turn_counted k1 r hrow
    rw [hupd]
    rfl
  · intro h
    rcases h with h | h <;> rw [h] <;> decide

theorem layoutsBegin_checked :
    ∀ n, n < 13 →
      (match (if ((n : Nat) : Int) = ((TUNING_12EDO : Nat) : Int) then some 0
              else layoutsBeginLoop ((n : Nat) : Int) layoutOptions 0) with
        | some i =>
          decide ((layoutOptions[i]?.map fun l => l.tuning) = some n
            ∧ ∀ j, j < i → (layoutOptions[j]?.map fun l => l.tuning) ≠ some n)
        | none => false) = true := by
  decide

/-- C29: for every `tuningIndex` from 0 to 12, `layoutsBegin()` returns without
reading past the end of `layoutOptions`, and what it returns is the smallest
index whose layout has that tuning. The catalog is sorted by tuning index, every
layout's tuning is below `TUNINGCOUNT`, and each of the 13 tunings has a
layout. -/
theorem layoutsBegin_first_of_tuning (p : presetDef) (h0 : 0 ≤ p.tuningIndex)
    (h1 : p.tuningIndex < TUNINGCOUNT) :
    (∃ i, p.layoutsBegin = some i
      ∧ (layoutOptions[i]?.map fun l => (l.tuning : Int)) = some p.tuningIndex
      ∧ ∀ j, j < i → (layoutOptions[j]?.map fun l => (l.tuning : Int)) ≠ some p.tuningIndex)
    ∧ List.Pairwise (fun x y => x ≤ y) (layoutOptions.map fun l => l.tuning)
    ∧ (∀ l ∈ layoutOptions, l.tuning < TUNINGCOUNT)
    ∧ (∀ t, t < TUNINGCOUNT → ∃ l ∈ layoutOptions, l.tuning = t) := by
  refine ⟨?_, by decide, by decide, by decide⟩
  obtain ⟨n, hn⟩ : ∃ n : Nat, p.tuningIndex = (n : Int) := ⟨p.tuningIndex.toNat, by omega⟩
  have hlt : n < 13 := by
    simp only [TUNINGCOUNT] at h1
    omega
  have hchk := layoutsBegin_checked n hlt
  have hlb : p.layoutsBegin = (if ((n : Nat) : Int) = ((TUNING_12EDO : Nat) : Int) then some 0
      else layoutsBeginLoop ((n : Nat) : Int) layoutOptions 0) := by
    simp only [presetDef.layoutsBegin, hn]
  rw [← hlb] at hchk
  cases hres : p.layoutsBegin with
  | none => simp [hres] at hchk
  | some i =>
    simp only [hres, decide_eq_true_eq] at hchk
    obtain ⟨hi1, hi2⟩ := hchk
    refine ⟨i, rfl, ?_, ?_⟩
    · cases hl : layoutOptions[i]? with
      | none => simp [hl] at hi1
      | some l =>
        simp only [hl, Option.map_some', Option.some.injEq] at hi1 ⊢
        rw [hn, hi1]
    · intro j hj hcon
      apply hi2 j hj
      cases hl : layoutOptions[j]? with
      | none => simp [hl] at hcon
      | some l =>
        simp only [hl, Option.map_some', Option.some.injEq] at hcon ⊢
        rw [hn] at hcon
        exact_mod_cast hcon

/-- C29 witness: a 53-EDO preset; its first layout is entry 28. -/
theorem layoutsBegin_first_of_tuning_witness :
    (0 : Int) ≤ 7 ∧ (7 : Int) < TUNINGCOUNT
    ∧ presetDef.layoutsBegin ⟨"w", 7, 0, 0, 0, 0⟩ = some 28
    ∧ ∃ i, presetDef.layoutsBegin ⟨"w", 7, 0, 0, 0, 0⟩ = some i
      ∧ (layoutOptions[i]?.map fun l => (l.tuning : Int)) = some 7
      ∧ ∀ j, j < i → (layoutOptions[j]?.map fun l => (l.tuning : Int)) ≠ some 7 :=
  ⟨by decide, by decide, by decide,
    (layoutsBegin_first_of_tuning ⟨"w", 7, 0, 0, 0, 0⟩ (by decide) (by decide)).1⟩

theorem tableEntry_mirror_checked :
    ∀ s ∈ knobStates, ∀ b a : Bool,
      (match tableEntry s b a with
        | some st =>
          decide (st ∈ knobStates
            ∧ tableEntry (mirrorState s) a b = some (mirrorState st)
            ∧ (mirrorState st &&& 8) >>> 3 = (st &&& 16) >>> 4
            ∧ (mirrorState st &&& 16) >>> 4 = (st &&& 8) >>> 3
            ∧ (st &&& 8) >>> 3 + (st &&& 16) >>> 4 ≤ 1)
        | none => false) = true := by
  decide

theorem isInt32_wrap32 (x : Int) : isInt32 (wrap32 x) := by
  unfold isInt32 wrap32
  omega

theorem turnBuffer_mirror (tb : Int) (p q : Nat) :
    intSub (intAdd (wrap32 (-tb)) (q : Int)) (p : Int)
      = wrap32 (-(intSub (intAdd tb (p : Int)) (q : Int))) := by
  simp only [intSub, intAdd, wrap32]
  omega

/-- One `update()` of a decoder and of its mirror image, fed the same pin
levels: the states stay mirror images and the buffers stay negated. -/
theorem update_mirror (k1 k2 : rotaryKnob) (r : Nat → Bool)
    (hs : k1.state ∈ knobStates) (hst : k2.state = mirrorState k1.state)
    (hA : k2.Apin = k1.Bpin) (hB : k2.Bpin = k1.Apin)
    (htb : k2.turnBuffer = wrap32 (-k1.turnBuffer)) :
    ∃ n1 n2, k1.update r = some n1 ∧ k2.update r = some n2
      ∧ n1.state ∈ knobStates ∧ n2.state = mirrorState n1.state
      ∧ n2.Apin = n1.Bpin ∧ n2.Bpin = n1.Apin
      ∧ n2.turnBuffer = wrap32 (-n1.turnBuffer) := by
  have hchk := tableEntry_mirror_checked k1.state hs (r k1.Bpin) (r k1.Apin)
  cases he : tableEntry k1.state (r k1.Bpin) (r k1.Apin) with
  | none => simp [he] at hchk
  | some st =>
    simp only [he, decide_eq_true_eq] at hchk
    obtain ⟨hmem, hmir, h8, h16, _⟩ := hchk
    have he2 : tableEntry k2.state (r k2.Bpin) (r k2.Apin) = some (mirrorState st) := by
      rw [hst, hA, hB]
      exact hmir
    refine ⟨_, _, update_of_tableEntry k1 r st he, update_of_tableEntry k2 r _ he2,
      hmem, rfl, hA, hB, ?_⟩
    show intSub (intAdd k2.turnBuffer _) _ = wrap32 (-(intSub (intAdd k1.turnBuffer _) _))
    rw [h8, h16, htb]
    exact turnBuffer_mirror k1.turnBuffer _ _

theorem updates_mirror (rs : List (Nat → Bool)) :
    ∀ k1 k2 : rotaryKnob, k1.state ∈ knobStates → k2.state = mirrorState k1.state →
      k2.Apin = k1.Bpin → k2.Bpin = k1.Apin → k2.turnBuffer = wrap32 (-k1.turnBuffer) →
      isInt32 k1.turnBuffer →
      ∃ n1 n2, k1.updates rs = some n1 ∧ k2.updates rs = some n2
        ∧ n2.state = mirrorState n1.state ∧ n2.turnBuffer = wrap32 (-n1.turnBuffer)
        ∧ isInt32 n1.turnBuffer := by
  induction rs with
  | nil =>
    intro k1 k2 _ hst _ _ htb hi
    exact ⟨k1, k2, rfl, rfl, hst, htb, hi⟩
  | cons r rest ih =>
    intro k1 k2 hs hst hA hB htb _
    obtain ⟨m1, m2, hu1, hu2, hs1, hst1, hA1, hB1, htb1⟩ :=
      update_mirror k1 k2 r hs hst hA hB htb
    have hrow : k1.state &&& 7 ≤ 6 := Nat.le_of_lt_succ (knobStates_masked k1.state hs)
    have hi1 : isInt32 m1.turnBuffer := by
      obtain ⟨st, hupd, _, _⟩ := update_turn_counted k1 r hrow
      rw [hupd] at hu1
      injection hu1 with hu1
      rw [← hu1]
      exact isInt32_wrap32 _
    obtain ⟨n1, n2, h1, h2, h3, h4, h5⟩ := ih m1 m2 hs1 hst1 hA1 hB1 htb1 hi1
    refine ⟨n1, n2, ?_, ?_, h3, h4, h5⟩
    · simp only [rotaryKnob.updates, hu1]
      exact h1
    · simp only [rotaryKnob.updates, hu2]
      exact h2

/-- C30, as the code has it: the transition table is symmetric under swapping
the two pin bits together with the relabelling 1-4, 2-5, 3-6, 8-16. So for every
sequence of pin readings fed from the neutral state to a decoder and to the same
decoder after `invertDirection()`, the states are mirror images after every
update and the swapped accumulator is the negation of the unswapped one in `int`
arithmetic: the exact negation unless the unswapped accumulator is `-2^31`.
`invertDirection()` twice restores the pin assignment. -/
theorem invertDirection_reverses (a b c : Nat) (bufferTurns : Bool)
    (rs : List (Nat → Bool)) :
    (∀ s ∈ knobStates, ∀ x y : Bool,
        tableEntry (mirrorState s) y x = (tableEntry s x y).map mirrorState)
    ∧ (∃ k1 k2, (rotaryKnob.new a b c bufferTurns).updates rs = some k1
        ∧ (rotaryKnob.new a b c bufferTurns).invertDirection.updates rs = some k2
        ∧ k2.state = mirrorState k1.state
        ∧ k2.turnBuffer = wrap32 (-k1.turnBuffer)
        ∧ (k1.turnBuffer ≠ -2147483648 → k2.turnBuffer = -k1.turnBuffer))
    ∧ ∀ k : rotaryKnob, k.invertDirection.invertDirection = k := by
  refine ⟨by decide, ?_, fun k => rfl⟩
  obtain ⟨k1, k2, h1, h2, h3, h4, h5⟩ :=
    updates_mirror rs (rotaryKnob.new a b c bufferTurns)
      (rotaryKnob.new a b c bufferTurns).invertDirection
      (show (0 : Nat) ∈ knobStates by decide) rfl rfl rfl
      (show (0 : Int) = wrap32 (-0) by decide) (show isInt32 0 by decide)
  refine ⟨k1, k2, h1, h2, h3, h4, ?_⟩
  intro hne
  rw [h4]
  unfold isInt32 at h5
  unfold wrap32
  omega

/-- C30 witness: one counter-clockwise click on pins A = 0, B = 1. -/
theorem invertDirection_reverses_witness :
    ∃ k1 k2, (rotaryKnob.new 0 1 2 true).updates (readingsAB 0 1
          [(true, true), (false, true), (false, false), (true, false), (true, true)]) = some k1
      ∧ (rotaryKnob.new 0 1 2 true).invertDirection.updates (readingsAB 0 1
          [(true, true), (false, true), (false, false), (true, false), (true, true)]) = some k2
      ∧ k1.turnBuffer = 1 ∧ k1.turnBuffer ≠ -2147483648
      ∧ k2.turnBuffer = -k1.turnBuffer := by
  obtain ⟨k1, k2, h1, h2, _, _, h5⟩ := (invertDirection_reverses 0 1 2 true (readingsAB 0 1
    [(true, true), (false, true), (false, false), (true, false), (true, true)])).2.1
  have hk : (rotaryKnob.new 0 1 2 true).updates (readingsAB 0 1
      [(true, true), (false, true), (false, false), (true, false), (true, true)])
      = some ⟨1, 0, 1, 2, 8, true, true⟩ := by decide
  have e : k1 = ⟨1, 0, 1, 2, 8, true, true⟩ := by
    rw [hk] at h1
    injection h1 with h1
    exact h1.symm
  have hne : k1.turnBuffer ≠ -2147483648 := by
    rw [e]
    decide
  exact ⟨k1, k2, h1, h2, by rw [e], hne, h5 hne⟩

theorem updates_append (l2 : List (Nat → Bool)) :
    ∀ (l1 : List (Nat → Bool)) (k : rotaryKnob),
      k.updates (l1 ++ l2) = (k.updates l1).bind fun k1 => k1.updates l2 := by
  intro l1
  induction l1 with
  | nil =>
    intro k
    rfl
  | cons r rest ih =>
    intro k
    show rotaryKnob.updates k (r :: (rest ++ l2)) = _
    simp only [rotaryKnob.updates]
    cases hu : k.update r with
    | none => rfl
    | some k1 => exact ih k1

theorem turnBuffer_down_wrap (tb : Int) (p q : Nat) (hp : p = 0)
    (hq : q = 1) : intSub (intAdd tb (p : Int)) (q : Int) = wrap32 (tb - 1) := by
  subst hp hq
  simp only [intSub, intAdd, wrap32]
  omega

/-- One clockwise click on a knob on pins A = 0, B = 1 that is at rest (state 0,
or state 16 after a clockwise click): state 16 and one less in the buffer. -/
theorem updates_clockwise_click (k : rotaryKnob) (hA : k.Apin = 0) (hB : k.Bpin = 1)
    (hs : k.state = 0 ∨ k.state = 16) (hi : isInt32 k.turnBuffer) :
    k.updates (readingsAB 0 1 [(true, false), (false, false), (false, true), (true, true)])
      = some { k with state := 16, turnBuffer := wrap32 (k.turnBuffer - 1) } := by
  have b1 : pinLevels 0 1 true false k.Bpin = false := by rw [hB]; rfl
  have a1 : pinLevels 0 1 true false k.Apin = true := by rw [hA]; rfl
  have b2 : pinLevels 0 1 false false k.Bpin = false := by rw [hB]; rfl
  have a2 : pinLevels 0 1 false false k.Apin = false := by rw [hA]; rfl
  have b3 : pinLevels 0 1 false true k.Bpin = true := by rw [hB]; rfl
  have a3 : pinLevels 0 1 false true k.Apin = false := by rw [hA]; rfl
  have b4 : pinLevels 0 1 true true k.Bpin = true := by rw [hB]; rfl
  have a4 : pinLevels 0 1 true true k.Apin = true := by rw [hA]; rfl
  have e1 : k.update (pinLevels 0 1 true false)
      = some { k with state := 4, turnBuffer := k.turnBuffer } := by
    rcases hs with h | h
    · exact update_table_entry k _ 0 4 k.turnBuffer k.turnBuffer false true h rfl b1 a1
        (by decide) (turnBuffer_keep _ hi _ _ (by decide) (by decide))
    · exact update_table_entry k _ 16 4 k.turnBuffer k.turnBuffer false true h rfl b1 a1
        (by decide) (turnBuffer_keep _ hi _ _ (by decide) (by decide))
  have e2 := update_table_entry { k with state := 4, turnBuffer := k.turnBuffer }
    (pinLevels 0 1 false false) 4 5 k.turnBuffer k.turnBuffer false false rfl rfl b2 a2
    (by decide) (turnBuffer_keep _ hi _ _ (by decide) (by decide))
  have e3 := update_table_entry { k with state := 5, turnBuffer := k.turnBuffer }
    (pinLevels 0 1 false true) 5 6 k.turnBuffer k.turnBuffer true false rfl rfl b3 a3
    (by decide) (turnBuffer_keep _ hi _ _ (by decide) (by decide))
  have e4 := update_table_entry { k with state := 6, turnBuffer := k.turnBuffer }
    (pinLevels 0 1 true true) 6 16 k.turnBuffer (wrap32 (k.turnBuffer - 1)) true true
    rfl rfl b4 a4 (by decide) (turnBuffer_down_wrap _ _ _ (by decide) (by decide))
  simp only [readingsAB, List.map, rotaryKnob.updates, e1, e2, e3, e4]

theorem updates_clockwise_clicks (n : Nat) :
    ∀ k : rotaryKnob, k.Apin = 0 → k.Bpin = 1 → (k.state = 0 ∨ k.state = 16) →
      isInt32 k.turnBuffer →
      (k.updates (clockwiseClicks 0 1 n)).map (fun k1 => k1.turnBuffer)
        = some (wrap32 (k.turnBuffer - (n : Int))) := by
  induction n with
  | zero =>
    intro k _ _ _ hi
    simp only [clockwiseClicks, rotaryKnob.updates, Option.map_some', Nat.cast_zero, sub_zero]
    rw [wrap32_of_isInt32 hi]
  | succ n ih =>
    intro k hA hB hs hi
    have h1 := updates_clockwise_click k hA hB hs hi
    have h2 := ih { k with state := 16, turnBuffer := wrap32 (k.turnBuffer - 1) } hA hB
      (Or.inr rfl) (isInt32_wrap32 _)
    simp only [clockwiseClicks]
    rw [updates_append, h1, Option.some_bind, h2]
    congr 1
    simp only [wrap32]
    push_cast
    omega

/-- C30 does not hold for every sequence: after `2^31` clockwise clicks fed to
a fresh knob on pins A = 0, B = 1 the accumulator is `-2^31`, and the
accumulator of the same knob with its pins swapped is `-2^31` as well, not the
negation `2^31`. -/
theorem invertDirection_at_int_min :
    ((rotaryKnob.new 0 1 2 true).updates (clockwiseClicks 0 1 2147483648)).map
        (fun k => k.turnBuffer) = some (-2147483648)
    ∧ ((rotaryKnob.new 0 1 2 true).invertDirection.updates
        (clockwiseClicks 0 1 2147483648)).map (fun k => k.turnBuffer) = some (-2147483648)
    ∧ (-2147483648 : Int) ≠ -(-2147483648) := by
  have h1 := updates_clockwise_clicks 2147483648 (rotaryKnob.new 0 1 2 true) rfl rfl
    (Or.inl rfl) (show isInt32 0 by decide)
  have hw : wrap32 ((rotaryKnob.new 0 1 2 true).turnBuffer - ((2147483648 : Nat) : Int))
      = -2147483648 := by decide
  rw [hw] at h1
  refine ⟨h1, ?_, by decide⟩
  obtain ⟨k1, k2, hu1, hu2, _, htb, _⟩ :=
    updates_mirror (clockwiseClicks 0 1 2147483648) (rotaryKnob.new 0 1 2 true)
      (rotaryKnob.new 0 1 2 true).invertDirection
      (show (0 : Nat) ∈ knobStates by decide) rfl rfl rfl
      (show (0 : Int) = wrap32 (-0) by decide) (show isInt32 0 by decide)
  rw [hu1] at h1
  simp only [Option.map_some', Option.some.injEq] at h1
  rw [hu2, Option.map_some', htb, h1]
  decide

theorem getTurnFromBuffer_buffered (k : rotaryKnob) (hb : k.bufferTurns = true)
    (hi : isInt32 k.turnBuffer) :
    k.getTurnFromBuffer
      = (Int.sign k.turnBuffer, { k with turnBuffer := k.turnBuffer - Int.sign k.turnBuffer }) := by
  unfold isInt32 at hi
  rcases lt_trichotomy k.turnBuffer 0 with hn | hn | hn
  · have h1 : intMul (if k.turnBuffer > 0 then 1 else -1) (if k.turnBuffer ≠ 0 then 1 else 0)
        = -1 := by
      rw [if_neg (by omega), if_pos (by omega)]
      decide
    have h2 : intSub k.turnBuffer (-1) = k.turnBuffer - -1 := by
      simp only [intSub, wrap32]
      omega
    simp only [rotaryKnob.getTurnFromBuffer, hb, if_true, h1, h2,
      Int.sign_eq_neg_one_of_neg hn]
  · have h1 : intMul (if k.turnBuffer > 0 then 1 else -1) (if k.turnBuffer ≠ 0 then 1 else 0)
        = 0 := by
      rw [hn]
      decide
    have h2 : intSub k.turnBuffer 0 = k.turnBuffer - 0 := by
      simp only [intSub, wrap32]
      omega
    have h3 : Int.sign k.turnBuffer = 0 := by rw [hn]; rfl
    simp only [rotaryKnob.getTurnFromBuffer, hb, if_true, h1, h2, h3]
  · have h1 : intMul (if k.turnBuffer > 0 then 1 else -1) (if k.turnBuffer ≠ 0 then 1 else 0)
        = 1 := by
      rw [if_pos hn, if_pos (by omega)]
      decide
    have h2 : intSub k.turnBuffer 1 = k.turnBuffer - 1 := by
      simp only [intSub, wrap32]
      omega
    simp only [rotaryKnob.getTurnFromBuffer, hb, if_true, h1, h2,
      Int.sign_eq_one_of_pos hn]

theorem turns_of_empty (m : Nat) :
    ∀ k : rotaryKnob, k.bufferTurns = true → k.turnBuffer = 0 →
      k.turns m = (List.replicate m 0, k) := by
  induction m with
  | zero =>
    intro k _ _
    rfl
  | succ m ih =>
    intro k hb hz
    have h1 := getTurnFromBuffer_buffered k hb (by rw [hz]; decide)
    have h2 : ({ k with turnBuffer := k.turnBuffer - Int.sign k.turnBuffer } : rotaryKnob) = k := by
      cases k
      simp only at hz
      subst hz
      rfl
    have h3 : Int.sign k.turnBuffer = 0 := by rw [hz]; rfl
    rw [h2, h3] at h1
    simp only [rotaryKnob.turns, h1, ih k hb hz, List.replicate_succ]

theorem turns_drain (m : Nat) :
    ∀ k : rotaryKnob, k.bufferTurns = true → isInt32 k.turnBuffer →
      k.turnBuffer.natAbs = m →
      k.turns m = (List.replicate m (Int.sign k.turnBuffer), { k with turnBuffer := 0 }) := by
  induction m with
  | zero =>
    intro k _ _ hm
    have hz : k.turnBuffer = 0 := Int.natAbs_eq_zero.mp hm
    have h2 : ({ k with turnBuffer := 0 } : rotaryKnob) = k := by
      cases k
      simp only at hz
      subst hz
      rfl
    rw [h2]
    rfl
  | succ m ih =>
    intro k hb hi hm
    have h1 := getTurnFromBuffer_buffered k hb hi
    have hi2 := hi
    unfold isInt32 at hi2
    have hsgn : Int.sign k.turnBuffer = 1 ∨ Int.sign k.turnBuffer = -1 := by
      rcases lt_trichotomy k.turnBuffer 0 with hn | hn | hn
      · exact Or.inr (Int.sign_eq_neg_one_of_neg hn)
      · rw [hn] at hm
        simp at hm
      · exact Or.inl (Int.sign_eq_one_of_pos hn)
    have hnext : isInt32 (k.turnBuffer - Int.sign k.turnBuffer)
        ∧ (k.turnBuffer - Int.sign k.turnBuffer).natAbs = m := by
      unfold isInt32
      rcases lt_trichotomy k.turnBuffer 0 with hn | hn | hn
      · rw [Int.sign_eq_neg_one_of_neg hn]
        omega
      · rw [hn] at hm
        simp at hm
      · rw [Int.sign_eq_one_of_pos hn]
        omega
    have h3 := ih { k with turnBuffer := k.turnBuffer - Int.sign k.turnBuffer } hb
      hnext.1 hnext.2
    have h4 : List.replicate m (Int.sign (k.turnBuffer - Int.sign k.turnBuffer))
        = List.replicate m (Int.sign k.turnBuffer) := by
      cases m with
      | zero => rfl
      | succ m =>
        congr 1
        rcases lt_trichotomy k.turnBuffer 0 with hn | hn | hn
        · rw [Int.sign_eq_neg_one_of_neg hn]
          rw [Int.sign_eq_neg_one_of_neg hn] at hnext
          exact Int.sign_eq_neg_one_of_neg (by omega)
        · rw [hn] at hm
          simp at hm
        · rw [Int.sign_eq_one_of_pos hn]
          rw [Int.sign_eq_one_of_pos hn] at hnext
          exact Int.sign_eq_one_of_pos (by omega)
    simp only [rotaryKnob.turns, h1, h3, h4, List.replicate_succ]

/-- C31: in buffered mode, for every `int` accumulator value `n`, with no
`update()` in between, the first `|n|` calls of `getTurnFromBuffer` each return
the sign of `n`, their sum is `n`, the accumulator is then 0, and any number of
further calls all return 0 and leave it at 0. -/
theorem getTurnFromBuffer_drains (k : rotaryKnob) (hb : k.bufferTurns = true)
    (hi : isInt32 k.turnBuffer) :
    (k.turns k.turnBuffer.natAbs).1
        = List.replicate k.turnBuffer.natAbs (Int.sign k.turnBuffer)
    ∧ (k.turns k.turnBuffer.natAbs).1.sum = k.turnBuffer
    ∧ (k.turns k.turnBuffer.natAbs).2 = { k with turnBuffer := 0 }
    ∧ (k.turns k.turnBuffer.natAbs).2.getValueInTurnBuffer = 0
    ∧ ∀ m, (k.turns k.turnBuffer.natAbs).2.turns m
        = (List.replicate m 0, { k with turnBuffer := 0 }) := by
  have h := turns_drain k.turnBuffer.natAbs k hb hi rfl
  rw [h]
  refine ⟨rfl, ?_, rfl, rfl, ?_⟩
  · simp only [List.sum_replicate, nsmul_eq_mul]
    rw [mul_comm]
    exact Int.sign_mul_natAbs k.turnBuffer
  · intro m
    exact turns_of_empty m { k with turnBuffer := 0 } hb rfl

/-- C31 witness: three clockwise turns buffered. -/
theorem getTurnFromBuffer_drains_witness :
    isInt32 (-3)
    ∧ (rotaryKnob.turns ⟨-3, 0, 1, 2, 0, true, true⟩ 3).1 = [-1, -1, -1]
    ∧ (rotaryKnob.turns ⟨-3, 0, 1, 2, 0, true, true⟩ 3).2 = ⟨0, 0, 1, 2, 0, true, true⟩
    ∧ (rotaryKnob.turns ⟨-3, 0, 1, 2, 0, true, true⟩ (Int.natAbs (-3))).1.sum = -3 :=
  have h := getTurnFromBuffer_drains ⟨-3, 0, 1, 2, 0, true, true⟩ rfl (by decide)
  ⟨by decide, h.1, h.2.2.1, h.2.1⟩

theorem tmod_add_tmod_eq_emod (n d : Int) (hd : 0 < d) :
    Int.tmod (Int.tmod n d + d) d = n % d := by
  have hlo := neg_lt_tmod_of_pos n hd
  have h1 : Int.tmod (Int.tmod n d + d) d = (Int.tmod n d + d) % d :=
    Int.tmod_eq_emod (by omega) (by omega)
  have h2 : Int.tmod n d + d = n + d * (1 - Int.tdiv n d) := by
    rw [Int.tmod_def]
    ring
  rw [h1, h2, Int.add_mul_emod_self_left]

theorem positiveMod_eq_emod (n d : Int) (hd : 0 < d) (hs : d ≤ 1073741824) :
    positiveMod n d = some (n % d) := by
  have hne : d ≠ 0 := by omega
  have hlo := neg_lt_tmod_of_pos n hd
  have hhi := Int.tmod_lt_of_pos n hd
  have hw : wrap32 (Int.tmod n d + d) = Int.tmod n d + d :=
    wrap32_of_isInt32 ⟨by omega, by omega⟩
  have hm1 : d ≠ -1 := by omega
  simp [positiveMod, intMod, intAdd, hne, hm1, hw, tmod_add_tmod_eq_emod n d hd]

/-- C32, as the code has it: for a preset with a catalog tuning, `keyDegree(s)`
is `(s + keyStepsFromC) mod cycleLength` whenever the sum `s + keyStepsFromC()`
fits in an `int`. So for two step offsets whose sums both fit,
`keyDegree(s1) = keyDegree(s2)` whenever `s1 - s2` is a multiple of
`cycleLength`, and in particular `keyDegree(s + cycleLength) = keyDegree(s)`. -/
theorem keyDegree_periodic (p : presetDef) (s1 s2 k : Int)
    (h0 : 0 ≤ p.tuningIndex) (h1 : p.tuningIndex < TUNINGCOUNT)
    (hk : p.keyStepsFromC = some k) (hs1 : isInt32 (s1 + k)) (hs2 : isInt32 (s2 + k)) :
    ∃ t, p.tuning = some t
      ∧ p.keyDegree s1 = some ((s1 + k) % (t.cycleLength : Int))
      ∧ p.keyDegree s2 = some ((s2 + k) % (t.cycleLength : Int))
      ∧ ((t.cycleLength : Int) ∣ s1 - s2 → p.keyDegree s1 = p.keyDegree s2)
      ∧ (s1 = s2 + (t.cycleLength : Int) → p.keyDegree s1 = p.keyDegree s2) := by
  obtain ⟨t, ht, hpos, hle⟩ := tuning_of_catalog_index p h0 h1
  have hd : (0 : Int) < (t.cycleLength : Int) := by exact_mod_cast hpos
  have hkd : ∀ s, isInt32 (s + k) →
      p.keyDegree s = some ((s + k) % (t.cycleLength : Int)) := by
    intro s hs
    simp only [presetDef.keyDegree, hk, ht, intAdd, wrap32_of_isInt32 hs]
    exact positiveMod_eq_emod (s + k) _ hd (by omega)
  have hdvd : (t.cycleLength : Int) ∣ s1 - s2 → p.keyDegree s1 = p.keyDegree s2 := by
    intro hdiv
    rw [hkd s1 hs1, hkd s2 hs2]
    congr 1
    apply Int.emod_eq_emod_iff_emod_sub_eq_zero.mpr
    have : s1 + k - (s2 + k) = s1 - s2 := by ring
    rw [this]
    exact Int.emod_eq_zero_of_dvd hdiv
  refine ⟨t, ht, hkd s1 hs1, hkd s2 hs2, hdvd, ?_⟩
  intro heq
  apply hdvd
  rw [heq]
  exact ⟨1, by ring⟩

/-- C32 witness: a 12-EDO preset in the key of A; the keys 3 and 15 steps above
C are one period apart. -/
theorem keyDegree_periodic_witness :
    (0 : Int) ≤ 0 ∧ (0 : Int) < TUNINGCOUNT
    ∧ presetDef.keyStepsFromC ⟨"w", 0, 0, 0, 0, 0⟩ = some (-9)
    ∧ isInt32 (15 + -9) ∧ isInt32 (3 + -9)
    ∧ presetDef.keyDegree ⟨"w", 0, 0, 0, 0, 0⟩ 15 = presetDef.keyDegree ⟨"w", 0, 0, 0, 0, 0⟩ 3 := by
  obtain ⟨t, ht, _, _, _, h⟩ :=
    keyDegree_periodic ⟨"w", 0, 0, 0, 0, 0⟩ 15 3 (-9) (by decide) (by decide) (by decide)
      (by decide) (by decide)
  have ht2 : presetDef.tuning ⟨"w", 0, 0, 0, 0, 0⟩ = tuningOptions[0]? := rfl
  have hc : t.cycleLength = 12 := by
    rw [ht2] at ht
    have h12 : (tuningOptions[0]?.map fun u => u.cycleLength) = some 12 := by decide
    rw [ht] at h12
    simpa using h12
  exact ⟨by decide, by decide, by decide, by decide, by decide, h (by rw [hc]; rfl)⟩

/-- C32 does not hold for every step offset: in the 12-EDO preset in the key of
A (`keyStepsFromC = -9`) the offsets `-2147483643` and `-2147483643 + 12` are
both `int` values one period apart, yet the first has degree 4 (its sum with -9
leaves the `int` range) and the second has degree 0. -/
theorem keyDegree_period_overflow :
    isInt32 (-2147483643) ∧ isInt32 (-2147483643 + 12)
    ∧ presetDef.keyDegree ⟨"c", 0, 0, 0, 0, 0⟩ (-2147483643) = some 4
    ∧ presetDef.keyDegree ⟨"c", 0, 0, 0, 0, 0⟩ (-2147483643 + 12) = some 0
    ∧ presetDef.keyDegree ⟨"c", 0, 0, 0, 0, 0⟩ (-2147483643 + 12)
        ≠ presetDef.keyDegree ⟨"c", 0, 0, 0, 0, 0⟩ (-2147483643) := by
  decide

end Hexperiment
